import Mathlib

set_option maxRecDepth 8000

/-!
# Slot simulator core: shallow embedding and verification

This file embeds the core round pipeline of the slot-simulator repository
(seeded RNG and sub-seed derivation, pattern/anchor generation, grid
resolution with the accidental-win validator, pay-rule evaluation, strict
payout validation, and the visual constraint engine) as executable Lean
definitions, and proves or refutes the specification claims about them.

Machine-number conventions used throughout:
* JavaScript 32-bit integer coercion (`x & x`, `<<`) is modelled with
  `toInt32` over `Int`; the intermediate float arithmetic in the source hash
  loops stays far below 2^53, so it is exact and `Int` models it faithfully.
* The LCG state is a `Nat` reduced `% 2^32`.  `random()` returns
  `state / 2^32`; `randomInt(max)` is `Math.floor(random() * max)` which for
  the small `max` values used here (bounded by list lengths) is exactly
  `state * max / 2^32` in natural division.
* The comparison `random() < 0.7` in the fillers compares the exact dyadic
  `state / 2^32` against the IEEE double nearest to 0.7
  (≈ 0.69999999999999995559…).  No multiple of 2^-32 lies between that double
  and the rational 7/10, so the comparison is equivalent to
  `state * 10 < 7 * 2^32`, which is how it is modelled.
* Fractional payout multipliers, weights and probabilities are exact at the
  magnitudes involved, and are modelled as exact rationals.  To keep the
  whole pipeline evaluable by kernel reduction they are carried as raw
  numerator/denominator pairs (`JSNum`, positive denominators by
  construction) with cross-multiplication comparison; `Math.round` is
  `⌊q + 1/2⌋` (JS rounds half-up toward +∞), which for a pair `n/d` with
  `d > 0` is the integer division `(2n + d) / (2d)` (`jsRound`, bridged to
  the `Int.floor` formula by `jsRound_eq_floor`).
-/

namespace SlotSim

/-- A symbol from the design configuration: an id and a tier/type string
(`LOW`, `MID`, `HIGH`, `WILD`, `SCATTER`, `BONUS`, `ANY_POSITION`). -/
structure Symbol where
  id : String
  type : String
deriving Repr, DecidableEq

/-- A grid of symbol ids, row-major (rows of columns), as produced by the
resolver. -/
abbrev Grid := List (List String)

/-- A payline: an ordered list of (row, col) coordinates. -/
abbrev Payline := List (Nat × Nat)

/-- Game rule configuration: grid dimensions and the payline table. -/
structure GameRule where
  rows : Nat
  cols : Nat
  paylines : List Payline
deriving Repr, DecidableEq

/-- Read `grid[row][col]`; out-of-range reads (which the sources guard
against before every access) default to `""`. -/
def gridGet (g : Grid) (r c : Nat) : String := (g.getD r []).getD c ""

/-- Write `grid[row][col] = v` (no-op out of range, which never happens on
the in-range coordinates the sources use). -/
def gridSet (g : Grid) (r c : Nat) (v : String) : Grid :=
  g.set r ((g.getD r []).set c v)

/-- Row-major list of all cell coordinates of a rows×cols grid. -/
def cellList (rows cols : Nat) : List (Nat × Nat) :=
  (List.range rows).flatMap (fun r => (List.range cols).map (fun c => (r, c)))

/-! ## Exact JS number arithmetic -/

/-- An exact rational `num / den` with `den > 0` at every construction site;
kept un-normalized so that every operation reduces in the kernel. -/
structure JSNum where
  num : Int
  den : Nat := 1
deriving Repr, DecidableEq

instance (n : Nat) : OfNat JSNum n := ⟨⟨(n : Int), 1⟩⟩

/-- Exact product. -/
def JSNum.mul (a b : JSNum) : JSNum := ⟨a.num * b.num, a.den * b.den⟩

/-- Exact sum. -/
def JSNum.add (a b : JSNum) : JSNum :=
  ⟨a.num * (b.den : Int) + b.num * (a.den : Int), a.den * b.den⟩

/-- Exact strict comparison (cross-multiplication; denominators are
positive at every construction site). -/
def JSNum.blt (a b : JSNum) : Bool := a.num * (b.den : Int) < b.num * (a.den : Int)

/-- Exact non-strict comparison. -/
def JSNum.ble (a b : JSNum) : Bool := a.num * (b.den : Int) ≤ b.num * (a.den : Int)

/-- The value of a `JSNum` as a rational. -/
def JSNum.toRat (a : JSNum) : ℚ := (a.num : ℚ) / (a.den : ℚ)

/-! ## JS 32-bit hash (rng.js `_hashString` / `deriveSubSeed`) -/

/-- JS `ToInt32` coercion (the `hash & hash` trick in the source). -/
def toInt32 (n : Int) : Int := ((n + 2147483648) % 4294967296) - 2147483648

/-- One step of the hash loop: `hash = ((hash << 5) - hash) + char` followed
by 32-bit coercion.  `hash << 5` itself is a 32-bit operation in JS. -/
def hashStep (h : Int) (c : Nat) : Int := toInt32 (toInt32 (h * 32) - h + (c : Int))

/-- rng.js `_hashString` and the identical loop in `deriveSubSeed`:
fold `hashStep` over the UTF-16 code units (all strings involved are ASCII,
so `Char.toNat` matches `charCodeAt`), then `Math.abs(hash) || 1`. -/
def hashString (s : String) : Nat :=
  let h := s.data.foldl (fun a c => hashStep a c.toNat) 0
  if h.natAbs = 0 then 1 else h.natAbs

/-! ## Seeded RNG (rng.js, seeded LCG mode)

The legacy `Math.random()` mode is inherently non-reproducible and is out of
scope of the determinism claims; the embedding covers the seeded mode, which
is the one every "for every fixed seed" claim quantifies over. -/

/-- Seeded LCG state (rng.js seeded mode). -/
structure RNG where
  seed : Nat
deriving Repr, DecidableEq

/-- rng.js constructor with a numeric seed:
`Math.floor(Math.abs(seed)) % 2147483647`, then `0 ↦ 1`. -/
def RNG.ofNat (n : Nat) : RNG :=
  let s := n % 2147483647
  ⟨if s = 0 then 1 else s⟩

/-- rng.js constructor with a string seed: hash first, then reduce. -/
def RNG.ofString (s : String) : RNG := RNG.ofNat (hashString s)

/-- One LCG step `seed = (1664525 * seed + 1013904223) % 2^32`, returning the
new state (the numerator of the `[0,1)` value) and the advanced generator. -/
def RNG.next (r : RNG) : Nat × RNG :=
  let s := (1664525 * r.seed + 1013904223) % 4294967296
  (s, ⟨s⟩)

/-- `random()` as the exact rational `state / 2^32`. -/
def RNG.randomQ (r : RNG) : JSNum × RNG :=
  let (s, r2) := r.next
  (⟨(s : Int), 4294967296⟩, r2)

/-- `randomInt(max) = Math.floor(random() * max)`, exact for the small `max`
values used by the sources (see the header note). -/
def RNG.randomInt (r : RNG) (max : Nat) : Nat × RNG :=
  let (s, r2) := r.next
  (s * max / 4294967296, r2)

/-- `selectFromArray` at call sites the sources guard to be nonempty: the
index is always in range, so the default is never used. -/
def RNG.selectFromArrayD {α : Type} (r : RNG) (a : List α) (dflt : α) : α × RNG :=
  let (i, r2) := r.randomInt a.length
  (a.getD i dflt, r2)

/-- The select-`n`-without-replacement loop used (inlined) by the scatter
generator and the visual engine: pick a random index, `splice` the element
out, repeat while elements remain. -/
def spliceSelect {α : Type} (rng : RNG) : Nat → List α → List α × RNG
  | 0, _ => ([], rng)
  | _ + 1, [] => ([], rng)
  | n + 1, a0 :: arest =>
    let avail := a0 :: arest
    let (i, rng2) := rng.randomInt avail.length
    let pick := avail.getD i a0
    let (restSel, rng3) := spliceSelect rng2 n (avail.eraseIdx i)
    (pick :: restSel, rng3)

/-- Context record for `RNG.deriveSubSeed` (rng.js P0-7 canonical sub-seed
derivation). -/
structure SeedContext where
  mathSeed : Option String := none
  spinIndex : Option Nat := none
  outcomeId : Option String := none
  patchVersion : Option String := none
deriving Repr, DecidableEq

/-- rng.js `RNG.deriveSubSeed`: build the canonical derivation string
`kind|baseSeed|spin|outcome|patch` and hash it with the 32-bit string hash. -/
def RNG.deriveSubSeed (kind : String) (context : SeedContext) : Nat :=
  let baseSeed := match context.mathSeed with
    | some s => s
    | none => "LEGACY"
  let spin := context.spinIndex.getD 0
  let outcome := context.outcomeId.getD "UNKNOWN"
  let patch := context.patchVersion.getD "v1.5.0"
  hashString (kind ++ "|" ++ baseSeed ++ "|" ++ toString spin ++ "|" ++ outcome ++ "|" ++ patch)

/-! ## Pay Rule Evaluator (payRuleEvaluator.js, v1.5.3)

The evaluator only reads the grid.  To make that frame property a statement
rather than a convention, every reading helper threads the grid value through
and returns it; the claim C10 theorem proves the returned grid is the input. -/

/-- A win event as produced by the evaluator (v1.5.3 shape). -/
structure WinEvent where
  eventId : String
  ruleType : String
  winAmount : Int
  paidSymbolId : String
  displaySymbolId : String
  positions : List (Nat × Nat)
  matchCount : Nat
  paylineIndex : Option Nat := none
deriving Repr, DecidableEq

/-- Evaluator configuration (gameRule + symbol catalog). -/
structure EvalConfig where
  gameRule : GameRule
  symbols : List Symbol
deriving Repr, DecidableEq

/-- The `symbolMap` lookup.  The source builds a `Map` keyed by id (last
duplicate wins); only *presence* of the id is ever used by the evaluator, so
a first-match `find?` is equivalent. -/
def symbolMapFind (symbols : List Symbol) (sid : String) : Option Symbol :=
  symbols.find? (fun s => s.id == sid)

/-- Read the symbols along a payline with the per-coordinate bounds check of
`_evaluateLinePay`; any out-of-range coordinate aborts with `none`.  Returns
the (symbol, row, col) triples and the threaded grid. -/
def readLine (grid : Grid) : Payline → Option (List (String × Nat × Nat)) × Grid
  | [] => (some [], grid)
  | (row, col) :: rest =>
    if row < grid.length ∧ col < (grid.getD row []).length then
      match readLine grid rest with
      | (some tl, g2) => (some ((gridGet grid row col, row, col) :: tl), g2)
      | (none, g2) => (none, g2)
    else (none, grid)

/-- `_evaluateLinePay` (v1.5.3): count the run of the first symbol from the
start of the line (no wild substitution), require ≥ 3 and a catalogued
symbol, and build the LINE event. -/
def evalLinePay (cfg : EvalConfig) (grid : Grid) (payline : Payline) (paylineIndex : Nat) :
    Option WinEvent × Grid :=
  if payline.isEmpty then (none, grid) else
  match readLine grid payline with
  | (none, g2) => (none, g2)
  | (some [], g2) => (none, g2)
  | (some ((s0, r0, c0) :: rest), g2) =>
    let runTail := rest.takeWhile (fun x => x.1 == s0)
    let matchCount := 1 + runTail.length
    let positions := (r0, c0) :: runTail.map (fun x => x.2)
    if matchCount < 3 then (none, g2)
    else
      match symbolMapFind cfg.symbols s0 with
      | none => (none, g2)
      | some _ =>
        (some { eventId := "LINE_" ++ toString paylineIndex ++ "_" ++ s0 ++ "_" ++ toString matchCount,
                ruleType := "LINE", winAmount := 0, paidSymbolId := s0, displaySymbolId := s0,
                positions := positions, matchCount := matchCount,
                paylineIndex := some paylineIndex }, g2)

/-- The payline scan of `evaluate`: first payline (in index order) whose
`_evaluateLinePay` returns an event wins; the loop `break`s there. -/
def evalFirstLine (cfg : EvalConfig) (grid : Grid) (idx : Nat) :
    List Payline → Option WinEvent × Grid
  | [] => (none, grid)
  | pl :: rest =>
    match evalLinePay cfg grid pl idx with
    | (some e, g2) => (some e, g2)
    | (none, g2) => evalFirstLine cfg g2 (idx + 1) rest

/-- Row-major list of all positions of symbol `sid` on the grid
(the A1-counting loop of `_evaluateAnyPositionPay`). -/
def collectPositions (grid : Grid) (sid : String) : List (Nat × Nat) :=
  (List.range grid.length).flatMap (fun r =>
    (List.range (grid.getD r []).length).filterMap (fun c =>
      if gridGet grid r c == sid then some (r, c) else none))

/-- `_evaluateAnyPositionPay` (v1.5.3): find the designated ANY_POSITION
symbol, collect all its occurrences, and emit one event when at least 3. -/
def evalAnyPositionPay (cfg : EvalConfig) (grid : Grid) : List WinEvent × Grid :=
  match cfg.symbols.find? (fun s => s.type == "ANY_POSITION") with
  | none => ([], grid)
  | some aps =>
    let a1Positions := collectPositions grid aps.id
    if 3 ≤ a1Positions.length then
      ([{ eventId := "ANY_POS_" ++ aps.id ++ "_" ++ toString a1Positions.length,
          ruleType := "ANY_POSITION", winAmount := 0, paidSymbolId := aps.id,
          displaySymbolId := aps.id, positions := a1Positions,
          matchCount := a1Positions.length }], grid)
    else ([], grid)

/-- `PayRuleEvaluator.evaluate` (v1.5.3): LINE rule first (single-event,
stop at the first qualifying payline), ANY_POSITION only when no LINE event
was found; at most one event is ever returned. -/
def PayRuleEvaluator.evaluate (cfg : EvalConfig) (grid : Grid) : List WinEvent × Grid :=
  if grid.isEmpty then ([], grid) else
  match evalFirstLine cfg grid 0 cfg.gameRule.paylines with
  | (some e, g2) => ([e], g2)
  | (none, g2) =>
    let (evs, g3) := evalAnyPositionPay cfg g2
    (evs.take 1, g3)

/-! ### Specification-side predicates for the evaluator and validator claims

These are written from the spec's words (runs of ≥ 3 along a payline), to be
compared with the code-derived definitions above. -/

/-- Spec: the symbol sequence contains (anywhere) three consecutive equal
symbols. -/
def hasRunOf3 : List String → Bool
  | a :: b :: c :: rest => (a == b && b == c) || hasRunOf3 (b :: c :: rest)
  | _ => false

/-- The symbols along a payline, read in payline order. -/
def lineSymbols (grid : Grid) (payline : Payline) : List String :=
  payline.map (fun rc => gridGet grid rc.1 rc.2)

/-- Spec: the sequence *starts* with a run of 3 or more identical symbols. -/
def startsWithRun3 (syms : List String) : Bool :=
  match syms with
  | s :: rest => 2 ≤ (rest.takeWhile (fun t => t == s)).length
  | [] => false

/-- All payline coordinates are inside the grid. -/
def lineInBounds (grid : Grid) (payline : Payline) : Bool :=
  payline.all (fun rc => decide (rc.1 < grid.length ∧ rc.2 < (grid.getD rc.1 []).length))

/-- Amended claim C3's notion of a qualifying payline: nonempty, in bounds,
starting with a run of ≥ 3, whose run symbol belongs to the catalog. -/
def lineQualifies (cfg : EvalConfig) (grid : Grid) (payline : Payline) : Bool :=
  !payline.isEmpty && lineInBounds grid payline &&
  startsWithRun3 (lineSymbols grid payline) &&
  (match lineSymbols grid payline with
   | s :: _ => (symbolMapFind cfg.symbols s).isSome
   | [] => false)

/-! ## Pattern Generator (patternGenerator.js, v1.5.3 era) -/

/-- A forced placement produced by the anchor generator. -/
structure Anchor where
  row : Nat
  col : Nat
  symbolId : String
deriving Repr, DecidableEq

/-- The `eligiblePaylines` field of a LINE win condition:
`'ANY'`, an explicit index list, or a fixed index. -/
inductive EligiblePaylines where
  | any
  | list (l : List Nat)
  | fixed (n : Nat)
deriving Repr, DecidableEq

/-- A win condition record; absent JSON fields are `none`. -/
structure WinCondition where
  type : String
  symbolId : Option String := none
  matchCount : Option Nat := none
  minCount : Option Nat := none
  targetCount : Option Nat := none
  payDirection : Option String := none
  eligiblePaylines : EligiblePaylines := .any
deriving Repr, DecidableEq

/-- The context handed to `PatternGenerator.generate` by the resolver
(after the resolver's defaulting, `mathSeed` is always a string). -/
structure GenContext where
  spinIndex : Nat
  mathSeed : String
  outcomeId : String
deriving Repr, DecidableEq

/-- Result record of `PatternGenerator.generate`. -/
structure GeneratedInfo where
  anchors : List Anchor
  generatedWinLine : Option Nat
  winConditionType : String
  patternSource : String := "GENERATED"
deriving Repr, DecidableEq

/-- `_derivePatternSeed`: the canonical `RNG.deriveSubSeed('PATTERN', …)`
derivation with `patchVersion = 'v1.5.0'`. -/
def derivePatternSeed (context : GenContext) : Nat :=
  RNG.deriveSubSeed "PATTERN"
    { mathSeed := some context.mathSeed, spinIndex := some context.spinIndex,
      outcomeId := some context.outcomeId, patchVersion := some "v1.5.0" }

/-- `_generateLineAnchors`: pick a payline (random over all, random among an
eligible list, or fixed), then anchor the first `matchCount` positions. -/
def generateLineAnchors (gameRule : GameRule) (wc : WinCondition) (localRng : RNG) :
    Except String GeneratedInfo :=
  match wc.symbolId, wc.matchCount with
  | some sid, some mc =>
    if sid == "" then .error "LINE winCondition must include symbolId and matchCount" else
    let pick : Except String Nat :=
      match wc.eligiblePaylines with
      | .any => .ok (localRng.randomInt gameRule.paylines.length).1
      | .list [] => .error "eligiblePaylines must not be empty"
      | .list (e0 :: erest) =>
        .ok ((e0 :: erest).getD (localRng.randomInt (e0 :: erest).length).1 e0)
      | .fixed n => .ok n
    match pick with
    | .error e => .error e
    | .ok selectedPaylineIndex =>
      if selectedPaylineIndex < gameRule.paylines.length then
        let selectedPayline := gameRule.paylines.getD selectedPaylineIndex []
        let anchors := (selectedPayline.take mc).map (fun rc => Anchor.mk rc.1 rc.2 sid)
        .ok { anchors := anchors, generatedWinLine := some selectedPaylineIndex,
              winConditionType := "LINE" }
      else .error ("invalid payline index: " ++ toString selectedPaylineIndex)
  | _, _ => .error "LINE winCondition must include symbolId and matchCount"

/-- The anchors-only payline scan of `_checkAnchorsOnlyAccidentalWin`:
`true` means the anchors alone already form ≥ 3 consecutive cells. -/
def checkAnchorScan (anchorPos : List (Nat × Nat)) :
    List (Nat × Nat) → Nat → Bool → Bool
  | [], _, _ => false
  | rc :: rest, cnt, lastWasAnchor =>
    if anchorPos.contains rc then
      let cnt2 := if lastWasAnchor then cnt + 1 else 1
      if 3 ≤ cnt2 then true else checkAnchorScan anchorPos rest cnt2 true
    else checkAnchorScan anchorPos rest 0 false

/-- `_checkAnchorsOnlyAccidentalWin`: `true` = problem detected. -/
def checkAnchorsOnlyAccidentalWin (gameRule : GameRule) (anchors : List Anchor) : Bool :=
  let anchorPos := anchors.map (fun a => (a.row, a.col))
  gameRule.paylines.any (fun pl => checkAnchorScan anchorPos pl 0 false)

/-- The string JS produces when an object is coerced in string
concatenation. -/
def jsObjectString : String := "[object Object]"

/-- The retry seed string that `_generateScatterAnchors` *actually* computes:
`generate` passes the whole `context` object where the parameter named
`derivedSeed` is expected, so `derivedSeed + retry + 1000` is JS string
concatenation `"[object Object]" + retry + "1000"`, not numeric addition. -/
def scatterRetrySeedString (retry : Nat) : String :=
  jsObjectString ++ toString retry ++ "1000"

/-- The retry loop of `_generateScatterAnchors`: up to 10 attempts; each
failure reseeds the local RNG from `scatterRetrySeedString`; exhaustion
returns the last attempt's anchors (with only a console warning). -/
def scatterAttemptLoop (gameRule : GameRule) (symbolId : String) (minCount : Nat)
    (allPositions : List (Nat × Nat)) :
    Nat → Nat → RNG → GeneratedInfo
  | 0, _, _ =>
    -- entry fuel is always ≥ 1; kept total for the definition
    { anchors := [], generatedWinLine := none, winConditionType := "SCATTER" }
  | fuel + 1, retry, rng =>
    let (selectedPositions, _) := spliceSelect rng minCount allPositions
    let anchors := selectedPositions.map (fun rc => Anchor.mk rc.1 rc.2 symbolId)
    if !checkAnchorsOnlyAccidentalWin gameRule anchors then
      { anchors := anchors, generatedWinLine := none, winConditionType := "SCATTER" }
    else
      match fuel with
      | 0 =>
        -- retries exhausted: best-effort result, not an error
        { anchors := anchors, generatedWinLine := none, winConditionType := "SCATTER" }
      | fuel2 + 1 =>
        let retryRng := RNG.ofString (scatterRetrySeedString retry)
        scatterAttemptLoop gameRule symbolId minCount allPositions (fuel2 + 1) (retry + 1) retryRng

/-- `_generateScatterAnchors` (as invoked by `generate`, which passes the
context object in the `derivedSeed` parameter — see
`scatterRetrySeedString`). -/
def generateScatterAnchors (gameRule : GameRule) (wc : WinCondition) (localRng : RNG) :
    Except String GeneratedInfo :=
  match wc.symbolId, wc.minCount with
  | some sid, some minCount =>
    if sid == "" then .error "SCATTER winCondition must include symbolId and minCount" else
    let allPositions := cellList gameRule.rows gameRule.cols
    .ok (scatterAttemptLoop gameRule sid minCount allPositions 10 0 localRng)
  | _, _ => .error "SCATTER winCondition must include symbolId and minCount"

/-- `_generateAnyPositionAnchors` (v1.5.3): no anchors, deferred entirely to
the evaluator's post-hoc scan. -/
def generateAnyPositionAnchors (wc : WinCondition) : Except String GeneratedInfo :=
  match wc.symbolId, wc.targetCount with
  | some sid, some _ =>
    if sid == "" then .error "ANY_POSITION winCondition must include symbolId and targetCount" else
    .ok { anchors := [], generatedWinLine := none, winConditionType := "ANY_POSITION" }
  | _, _ => .error "ANY_POSITION winCondition must include symbolId and targetCount"

/-- `PatternGenerator.generate`: derive the pattern seed canonically, then
dispatch on the win-condition type. -/
def PatternGenerator.generate (gameRule : GameRule) (winCondition : WinCondition)
    (context : GenContext) : Except String GeneratedInfo :=
  if winCondition.type == "" then .error "winCondition must include type"
  else
    let derivedSeed := derivePatternSeed context
    let localRng := RNG.ofNat derivedSeed
    if winCondition.type == "LINE" then generateLineAnchors gameRule winCondition localRng
    else if winCondition.type == "SCATTER" then generateScatterAnchors gameRule winCondition localRng
    else if winCondition.type == "ANY_POSITION" then generateAnyPositionAnchors winCondition
    else .error ("unsupported winCondition.type: " ++ winCondition.type)

/-! ## Outcomes -/

/-- The legacy `winConfig` of a WIN outcome (symbol, match count). -/
structure WinConfig where
  symbolId : String
  matchCount : Nat
  allowWild : Bool := false
deriving Repr, DecidableEq

/-- An abstract outcome as selected by the weighted selector. -/
structure Outcome where
  id : String
  type : String
  payoutMultiplier : JSNum := 0
  weight : Option JSNum := none
  winConfig : Option WinConfig := none
  winCondition : Option WinCondition := none
  hasLegacyPattern : Bool := false
deriving Repr, DecidableEq

/-! ## Shared accidental-win line scan

Both `PatternResolver._validateGrid` and
`VisualConstraintEngine._validateNoAccidentalWin` walk a payline counting
consecutive identical symbols and flag a count of ≥ 3. -/

/-- The consecutive-count scan from the second cell on: `last` is the
previous symbol, `cnt` its current run length. -/
def scanRun (last : String) (cnt : Nat) : List String → Bool
  | [] => false
  | s :: rest =>
    if s == last then
      if 3 ≤ cnt + 1 then true else scanRun s (cnt + 1) rest
    else scanRun s 1 rest

/-- Whether the source's scan detects a run of ≥ 3 on a symbol sequence
(first cell initializes `last`/`cnt`, mirroring the `lastSymbol = null`
start). -/
def lineHasRunScan (syms : List String) : Bool :=
  match syms with
  | [] => false
  | s :: rest => scanRun s 1 rest

/-! ## Visual Constraint Engine (visualConstraint.js, v1.5.0 signature) -/

/-- Tease sub-configuration (defaults as merged by the engine constructor). -/
structure TeaseConfig where
  enabled : Bool := true
  targetOutcomeIds : List String := ["SMALL_WIN", "FREE_SMALL_WIN"]
  chanceByOutcomeId : List (String × JSNum) := []
  triggerChance : Option JSNum := none
  cooldownSpins : Nat := 0
  maxTriggersPer100Spins : Option Nat := none
deriving Repr, DecidableEq

/-- Near-miss sub-configuration. -/
structure NearMissConfig where
  enabled : Bool := true
  multiLineCountRange : Nat × Nat := (1, 2)
deriving Repr, DecidableEq

/-- Engine configuration after the constructor's default merge. -/
structure VisualConfig where
  enabled : Bool := true
  safeFiller : String := "L1"
  maxRetries : Nat := 10
  patchVersion : String := "v1.4.patch"
  nearMiss : NearMissConfig := {}
  tease : TeaseConfig := {}
deriving Repr, DecidableEq

/-- The symbol types the visual layer must never introduce
(`forbiddenSymbolsInVisual`). -/
def forbiddenSymbolsInVisual : List String := ["WILD", "SCATTER", "BONUS"]

/-- Caller-owned cross-round visual state (`visualState` in simulate.js):
last tease round and the rolling rate-limit window `(startSpinIndex, count)`. -/
structure VisualState where
  lastTeaseSpinIndex : Option Nat := none
  teaseWindow : Option (Nat × Nat) := none
deriving Repr, DecidableEq

/-- Per-round visual telemetry.  String fields that the source initializes
to `null` and later sets to `''` are `Option String` (`none` = null,
`some ""` = empty string).  `visualAttemptReasons` is kept as the list the
retry loop pushes to; the source joins it with `';'` only for CSV output. -/
structure Telemetry where
  visualRequestedType : String := "NONE"
  visualAppliedType : String := "NONE"
  visualApplied : Bool := false
  visualPaylinesChosen : List Nat := []
  visualAttemptsUsed : Nat := 0
  visualGuardFailReason : Option String := none
  visualSeed : String := ""
  teaseEligible : Bool := false
  teaseChanceUsed : JSNum := 0
  teaseRoll : Option JSNum := none
  teaseBlockedBy : String := "NONE"
  visualGuardFailDetail : Option String := none
  visualAttemptReasons : List String := []
deriving Repr, DecidableEq

/-- The round context handed to the engine (and to the resolver).  The
caller-owned `visualState` travels alongside it as an explicit value. -/
structure VisualContext where
  spinIndex : Option Nat := none
  mathSeed : Option String := none
  outcomeId : Option String := none
  visualSeed : Option Nat := none
deriving Repr, DecidableEq

/-- JS `x || d` for an optional string (absent and `""` are both falsy). -/
def jsOrDefault (o : Option String) (d : String) : String :=
  match o with
  | some s => if s == "" then d else s
  | none => d

/-- `_ensureContext`: accept a context that has `visualSeed`, or the full
`mathSeed`/`spinIndex`/`outcomeId` triple; fall back to defaults when only
`spinIndex` is present; otherwise reject. -/
def ensureContext (context : Option VisualContext) (outcome : Outcome) :
    Option VisualContext :=
  match context with
  | none => none
  | some c =>
    if c.visualSeed.isSome then some c
    else if c.mathSeed.isSome && c.spinIndex.isSome && c.outcomeId.isSome then some c
    else if c.spinIndex.isSome then
      some { spinIndex := c.spinIndex,
             mathSeed := some (jsOrDefault c.mathSeed "default"),
             outcomeId := some (jsOrDefault c.outcomeId outcome.id),
             visualSeed := none }
    else none

/-- `_deriveVisualSeed`: an explicit `visualSeed` wins; otherwise the engine
hashes its own `mathSeed:spinIndex:outcomeId:VISUAL:patchVersion` string
with a local copy of the 32-bit hash loop (it does **not** call
`RNG.deriveSubSeed`). -/
def deriveVisualSeed (vcfg : VisualConfig) (context : VisualContext) : Nat :=
  match context.visualSeed with
  | some v => v
  | none =>
    let patchVersion := if vcfg.patchVersion == "" then "v1.4.patch" else vcfg.patchVersion
    let seedString := jsOrDefault context.mathSeed "default" ++ ":" ++
      toString (context.spinIndex.getD 0) ++ ":" ++
      jsOrDefault context.outcomeId "unknown" ++ ":VISUAL:" ++ patchVersion
    hashString seedString

/-- Does the needle start the character list? -/
def charsStart : List Char → List Char → Bool
  | [], _ => true
  | _ :: _, [] => false
  | a :: as, b :: bs => a == b && charsStart as bs

/-- Substring test on character lists (haystack first). -/
def charsHasSub : List Char → List Char → Bool
  | [], needle => needle.isEmpty
  | c :: rest, needle => charsStart needle (c :: rest) || charsHasSub rest needle

/-- `includes` on strings: `s` contains `sub` as a substring. -/
def strContains (s sub : String) : Bool := charsHasSub s.data sub.data

/-- `isNearMiss`: near-miss enabled, LOSS outcome whose id contains
`NEAR_MISS`. -/
def isNearMiss (vcfg : VisualConfig) (outcome : Outcome) : Bool :=
  vcfg.nearMiss.enabled && outcome.type == "LOSS" && outcome.id != "" &&
    strContains outcome.id "NEAR_MISS"

/-- Result record of `shouldTease`. -/
structure TeaseCheck where
  eligible : Bool := false
  requested : Bool := false
  blockedBy : String := "NOT_ELIGIBLE"
  roll : Option JSNum := none
  chanceUsed : JSNum := 0
deriving Repr, DecidableEq

/-- `shouldTease`: eligibility gate, probability gate, cooldown gate and
rolling rate-limit gate, in that order.  The caller-supplied `visualState`
is optional; when absent the cooldown/rate-limit gates are disabled.  The
returned state reflects the source's in-place `teaseWindow` update. -/
def shouldTease (vcfg : VisualConfig) (outcome : Outcome) (visualRng : RNG)
    (context : VisualContext) (vstate : Option VisualState) :
    TeaseCheck × RNG × Option VisualState :=
  let base : TeaseCheck := {}
  if !vcfg.tease.enabled then (base, visualRng, vstate)
  else if outcome.type != "WIN" then (base, visualRng, vstate)
  else if outcome.id == "" || !(vcfg.tease.targetOutcomeIds.contains outcome.id) then
    (base, visualRng, vstate)
  else
    let (rollNum, rng2) := visualRng.next
    let roll : JSNum := ⟨(rollNum : Int), 4294967296⟩
    let chanceUsed :=
      ((vcfg.tease.chanceByOutcomeId.lookup outcome.id).orElse
        (fun _ => vcfg.tease.triggerChance)).getD 0
    let r1 : TeaseCheck :=
      { eligible := true, blockedBy := "NONE", roll := some roll, chanceUsed := chanceUsed }
    if chanceUsed.ble roll then ({ r1 with blockedBy := "CHANCE_MISS" }, rng2, vstate)
    else
      let spinIndex := context.spinIndex.getD 0
      let cooldownBlocked :=
        0 < vcfg.tease.cooldownSpins &&
        (match vstate with
         | some st =>
           match st.lastTeaseSpinIndex with
           | some last => decide ((spinIndex : Int) - (last : Int) ≤ (vcfg.tease.cooldownSpins : Int))
           | none => false
         | none => false)
      if cooldownBlocked then ({ r1 with blockedBy := "COOLDOWN" }, rng2, vstate)
      else
        match vcfg.tease.maxTriggersPer100Spins, vstate with
        | some maxT, some st =>
          let w :=
            match st.teaseWindow with
            | none => (spinIndex - 99, 0)
            | some (start, cnt) =>
              if spinIndex < start then (spinIndex - 99, 0)
              else if start + 100 ≤ spinIndex then (spinIndex - 99, 0)
              else (start, cnt)
          if maxT ≤ w.2 then ({ r1 with blockedBy := "RATE_LIMIT" }, rng2, vstate)
          else ({ r1 with requested := true, blockedBy := "NONE" }, rng2,
                some { st with teaseWindow := some w })
        | _, _ => ({ r1 with requested := true, blockedBy := "NONE" }, rng2, vstate)

/-- `_deriveProtectedCells` (v1.5.0 strict priority):
`winEvents[0].positions` first, then the legacy win line's first
`matchCount` positions, else empty.  Sets of `"row,col"` keys are modelled
as position lists (membership is all that is ever used). -/
def deriveProtectedCellsLegacy (gameRule : GameRule) (legacyWinLine : Option Nat)
    (outcome : Outcome) : List (Nat × Nat) :=
  match legacyWinLine with
  | some wl =>
    if wl < gameRule.paylines.length then
      let payline := gameRule.paylines.getD wl []
      let matchCount := match outcome.winConfig with
        | some wc => wc.matchCount
        | none => 0
      payline.take matchCount
    else []
  | none => []

/-- `_deriveProtectedCells` body: event positions first, legacy fallback
second, empty third. -/
def deriveProtectedCells (gameRule : GameRule) (winEvents : List WinEvent)
    (legacyWinLine : Option Nat) (outcome : Outcome) : List (Nat × Nat) :=
  match winEvents with
  | e :: _ =>
    if !e.positions.isEmpty then e.positions
    else deriveProtectedCellsLegacy gameRule legacyWinLine outcome
  | [] => deriveProtectedCellsLegacy gameRule legacyWinLine outcome

/-- `_applyTease` per-payline body: place the HIGH tease symbol on the first
two positions (outside the protected set) and force a LOW break symbol on
the third; skipped entirely when no HIGH or no LOW symbols exist. -/
def teaseApplyOne (symbols : List Symbol) (protectedSet : List (Nat × Nat))
    (g : Grid) (payline : Payline) (rng : RNG) : Grid × RNG :=
  let highSymbols := symbols.filter
    (fun s => s.type == "HIGH" && !forbiddenSymbolsInVisual.contains s.type)
  let lowSymbols := symbols.filter
    (fun s => s.type == "LOW" && !forbiddenSymbolsInVisual.contains s.type)
  match highSymbols, lowSymbols with
  | h0 :: hrest, l0 :: lrest =>
    let (teaseSymbol, rng2) := rng.selectFromArrayD (h0 :: hrest) h0
    let g2 := (payline.take 2).foldl (fun acc rc =>
        if protectedSet.contains rc then acc else gridSet acc rc.1 rc.2 teaseSymbol.id) g
    match payline.get? 2 with
    | some rc =>
      if protectedSet.contains rc then (g2, rng2)
      else
        let (breakSymbol, rng3) := rng2.selectFromArrayD (l0 :: lrest) l0
        (gridSet g2 rc.1 rc.2 breakSymbol.id, rng3)
    | none => (g2, rng2)
  | _, _ => (g, rng)

/-- Fold `teaseApplyOne` over the selected tease paylines. -/
def teasePaylinesApply (symbols : List Symbol) (protectedSet : List (Nat × Nat)) :
    List (Nat × Payline) → Grid → RNG → Grid × RNG
  | [], g, rng => (g, rng)
  | (_, pl) :: rest, g, rng =>
    let (g2, rng2) := teaseApplyOne symbols protectedSet g pl rng
    teasePaylinesApply symbols protectedSet rest g2 rng2

/-- The anti-extend sweep at the end of `_applyTease`: any post-matchCount
cell of the true win line still holding the win symbol is replaced by a
random different, non-forbidden symbol. -/
def antiExtendFix (symbols : List Symbol) (winSymbolId : String) :
    List (Nat × Nat) → Grid → RNG → Grid × RNG
  | [], g, rng => (g, rng)
  | rc :: rest, g, rng =>
    if gridGet g rc.1 rc.2 == winSymbolId then
      match symbols.filter
          (fun s => s.id != winSymbolId && !forbiddenSymbolsInVisual.contains s.type) with
      | d0 :: drest =>
        let (sym, rng2) := rng.selectFromArrayD (d0 :: drest) d0
        antiExtendFix symbols winSymbolId rest (gridSet g rc.1 rc.2 sym.id) rng2
      | [] => antiExtendFix symbols winSymbolId rest g rng
    else antiExtendFix symbols winSymbolId rest g rng

/-- `_applyTease` (v1.5.0): guard the win line, derive/receive protected
cells, choose 1–2 non-winning paylines, apply the near-miss-style pattern to
them, then run the anti-extend sweep. -/
def applyTease (symbols : List Symbol) (gameRule : GameRule) (grid : Grid)
    (outcome : Outcome) (winLine : Option Nat) (visualRng : RNG) (telemetry : Telemetry)
    (protectedCells : List (Nat × Nat)) : Grid × Telemetry × RNG :=
  match winLine with
  | none => (grid, telemetry, visualRng)
  | some wl =>
    if wl < gameRule.paylines.length then
      let truePayline := gameRule.paylines.getD wl []
      match outcome.winConfig with
      | none => (grid, telemetry, visualRng)
      | some wc =>
        if wc.symbolId == "" || wc.matchCount == 0 then (grid, telemetry, visualRng)
        else
          let protectedSet :=
            if protectedCells.isEmpty then truePayline.take wc.matchCount else protectedCells
          let antiExtendCells := truePayline.drop wc.matchCount
          let availablePaylines :=
            ((List.range gameRule.paylines.length).filter (fun i => i != wl)).map
              (fun i => (i, gameRule.paylines.getD i []))
          let (k, rng1) := visualRng.randomInt 2
          let numTeasePaylines := min (k + 1) availablePaylines.length
          let (selected, rng2) := spliceSelect rng1 numTeasePaylines availablePaylines
          let tel2 := { telemetry with visualPaylinesChosen := selected.map (fun p => p.1) }
          let (g2, rng3) := teasePaylinesApply symbols protectedSet selected grid rng2
          let (g3, rng4) := antiExtendFix symbols wc.symbolId antiExtendCells g2 rng3
          (g3, tel2, rng4)
    else (grid, telemetry, visualRng)

/-- `_applyNearMissLinePay` per-payline body: two target symbols then a
break symbol on the third position. -/
def nearMissApplyOne (symbols : List Symbol) (targetSymbol : Symbol)
    (payline : Payline) (g : Grid) (rng : RNG) : Grid × RNG :=
  let g2 := (payline.take 2).foldl (fun acc rc => gridSet acc rc.1 rc.2 targetSymbol.id) g
  match payline.get? 2 with
  | some rc =>
    let lowSymbols := symbols.filter
      (fun s => s.type == "LOW" && !forbiddenSymbolsInVisual.contains s.type)
    let differentSymbols :=
      if lowSymbols.isEmpty then
        symbols.filter
          (fun s => s.id != targetSymbol.id && !forbiddenSymbolsInVisual.contains s.type)
      else lowSymbols
    match differentSymbols with
    | d0 :: drest =>
      let (breakSymbol, rng2) := rng.selectFromArrayD (d0 :: drest) d0
      (gridSet g2 rc.1 rc.2 breakSymbol.id, rng2)
    | [] => (g2, rng)
  | none => (g2, rng)

/-- Fold `nearMissApplyOne` over the selected paylines. -/
def nearMissPaylines (symbols : List Symbol) (targetSymbol : Symbol) :
    List Payline → Grid → RNG → Grid × RNG
  | [], g, rng => (g, rng)
  | pl :: rest, g, rng =>
    let (g2, rng2) := nearMissApplyOne symbols targetSymbol pl g rng
    nearMissPaylines symbols targetSymbol rest g2 rng2

/-- `_applyNearMissLinePay`: choose 1–2 paylines within
`multiLineCountRange` (JS `|| 1` / `|| 2` defaults on falsy bounds), pick a
HIGH (else non-special) target symbol, and stamp the near-miss pattern. -/
def applyNearMissLinePay (vcfg : VisualConfig) (symbols : List Symbol) (gameRule : GameRule)
    (grid : Grid) (visualRng : RNG) (telemetry : Telemetry) : Grid × Telemetry × RNG :=
  let range := vcfg.nearMiss.multiLineCountRange
  let minLines := if range.1 = 0 then 1 else range.1
  let maxLines := if range.2 = 0 then 2 else range.2
  let (k, rng1) := visualRng.randomInt (maxLines - minLines + 1)
  let numLines := min (k + minLines) gameRule.paylines.length
  let availablePaylines := List.range gameRule.paylines.length
  let (selectedIdx, rng2) := spliceSelect rng1 numLines availablePaylines
  let tel2 := { telemetry with visualPaylinesChosen := selectedIdx }
  let highSymbols := symbols.filter
    (fun s => s.type == "HIGH" && !forbiddenSymbolsInVisual.contains s.type)
  let nonSpecialSymbols := symbols.filter
    (fun s => s.type != "WILD" && s.type != "SCATTER" && !forbiddenSymbolsInVisual.contains s.type)
  let targetSymbols := if highSymbols.isEmpty then nonSpecialSymbols else highSymbols
  match targetSymbols with
  | [] => (grid, tel2, rng2)
  | t0 :: trest =>
    let (targetSymbol, rng3) := rng2.selectFromArrayD (t0 :: trest) t0
    let (g2, rng4) := nearMissPaylines symbols targetSymbol
      (selectedIdx.map (fun i => gameRule.paylines.getD i [])) grid rng3
    (g2, tel2, rng4)

/-- Weight table of `_getWeightedFillerSymbol` (`weights[type] || 1`). -/
def visualWeights (t : String) : Nat :=
  if t == "LOW" then 50 else if t == "MID" then 30 else if t == "HIGH" then 15 else 1

/-- The weighted-pool branch of `_getWeightedFillerSymbol`. -/
def visualWeightedPick (symbols2 : List Symbol) (rng : RNG) : Except String (String × RNG) :=
  match symbols2.flatMap (fun s => List.replicate (visualWeights s.type) s) with
  | p0 :: prest =>
    let (sym, rng2) := rng.selectFromArrayD (p0 :: prest) p0
    .ok (sym.id, rng2)
  | [] =>
    match symbols2 with
    | s :: _ => .ok (s.id, rng)
    | [] => .error "no usable filler symbols (all forbidden)"

/-- `_getWeightedFillerSymbol`: filter out forbidden types (falling back to
the full catalog minus forbidden types, throwing when even that is empty),
prefer LOW/MID 70% of the time, else pick from the weighted pool. -/
def getWeightedFillerSymbol (allSymbols : List Symbol) (candidateSymbols : List Symbol)
    (rng : RNG) : Except String (String × RNG) :=
  let symbols1 := candidateSymbols.filter (fun s => !forbiddenSymbolsInVisual.contains s.type)
  let symbols2 :=
    if symbols1.isEmpty then allSymbols.filter (fun s => !forbiddenSymbolsInVisual.contains s.type)
    else symbols1
  if symbols2.isEmpty then .error "no usable filler symbols (all forbidden)"
  else
    let lowMidSymbols := symbols2.filter (fun s => s.type == "LOW" || s.type == "MID")
    match lowMidSymbols with
    | lm0 :: lmrest =>
      let (s, rng2) := rng.next
      if s * 10 < 30064771072 then
        let (sym, rng3) := rng2.selectFromArrayD (lm0 :: lmrest) lm0
        .ok (sym.id, rng3)
      else visualWeightedPick symbols2 rng2
    | [] => visualWeightedPick symbols2 rng

/-- The cell loop of `_improveVisualDistribution`: every non-protected cell
is redrawn from the weighted filler, avoiding `forbiddenSymbols` ids. -/
def improveCells (allSymbols : List Symbol) (protectedCells : List (Nat × Nat))
    (forbiddenSymbols : List String) :
    List (Nat × Nat) → Grid → RNG → Except String (Grid × RNG)
  | [], g, rng => .ok (g, rng)
  | rc :: rest, g, rng =>
    if protectedCells.contains rc then
      improveCells allSymbols protectedCells forbiddenSymbols rest g rng
    else
      let candidate0 :=
        if forbiddenSymbols.isEmpty then allSymbols
        else allSymbols.filter (fun s => !forbiddenSymbols.contains s.id)
      let candidateSymbols := if candidate0.isEmpty then allSymbols else candidate0
      match getWeightedFillerSymbol allSymbols candidateSymbols rng with
      | .error e => .error e
      | .ok (sid, rng2) =>
        improveCells allSymbols protectedCells forbiddenSymbols rest (gridSet g rc.1 rc.2 sid) rng2

/-- `_improveVisualDistribution` (its unused `payline`/`matchCount`
parameters are dropped). -/
def improveVisualDistribution (allSymbols : List Symbol) (rows cols : Nat) (grid : Grid)
    (protectedCells : List (Nat × Nat)) (forbiddenSymbols : List String) (rng : RNG) :
    Except String (Grid × RNG) :=
  improveCells allSymbols protectedCells forbiddenSymbols (cellList rows cols) grid rng

/-- `_applyWinGeneralOptimization`: protect the win cells (argument list, or
legacy-derived), forbid the win symbol (plus wild when `allowWild`), and
redistribute the rest. -/
def applyWinGeneralOptimization (symbols : List Symbol) (gameRule : GameRule) (grid : Grid)
    (outcome : Outcome) (winLine : Option Nat) (rng : RNG)
    (protectedCells : List (Nat × Nat)) : Except String (Grid × RNG) :=
  let winLineValid := match winLine with
    | some wl => wl < gameRule.paylines.length
    | none => false
  let protectedSet :=
    if protectedCells.isEmpty && winLineValid then
      let payline := gameRule.paylines.getD (winLine.getD 0) []
      let matchCount := match outcome.winConfig with
        | some wc => wc.matchCount
        | none => 0
      payline.take matchCount
    else protectedCells
  let forbiddenSymbols :=
    match outcome.winConfig with
    | some wc =>
      if wc.symbolId == "" then []
      else
        let base := [wc.symbolId]
        if wc.allowWild then
          match symbols.find? (fun s => s.type == "WILD") with
          | some w => base ++ [w.id]
          | none => base
        else base
    | none => []
  improveVisualDistribution symbols gameRule.rows gameRule.cols grid protectedSet forbiddenSymbols rng

/-- `_applyLossGeneralOptimization`: full redistribution, nothing protected
or forbidden. -/
def applyLossGeneralOptimization (symbols : List Symbol) (gameRule : GameRule)
    (grid : Grid) (rng : RNG) : Except String (Grid × RNG) :=
  improveVisualDistribution symbols gameRule.rows gameRule.cols grid [] [] rng

/-- `_checkForbiddenSymbols`: first forbidden-type symbol found outside the
protected win cells, as an `Option` detail tag (`none` = clean). -/
def checkForbiddenSymbols (symbols : List Symbol) (gameRule : GameRule) (grid : Grid)
    (outcome : Outcome) (winLine : Option Nat) : Option String :=
  let forbiddenIds :=
    (symbols.filter (fun s => forbiddenSymbolsInVisual.contains s.type)).map (fun s => s.id)
  let protectedCells :=
    match winLine with
    | some wl =>
      if wl < gameRule.paylines.length && outcome.type == "WIN" then
        let payline := gameRule.paylines.getD wl []
        let matchCount := match outcome.winConfig with
          | some wc => wc.matchCount
          | none => 0
        payline.take matchCount
      else []
    | none => []
  (cellList gameRule.rows gameRule.cols).findSome? (fun rc =>
    if !protectedCells.contains rc && forbiddenIds.contains (gridGet grid rc.1 rc.2) then
      some ("FORBIDDEN_SYMBOL_DETECTED:" ++ gridGet grid rc.1 rc.2)
    else none)

/-- Result record of the safety scans (`{ isSafe, reason, detail }`; the
source's structured `detail` object is compressed to a tag string — only its
presence is consumed downstream). -/
structure SafetyResult where
  isSafe : Bool
  reason : Option String := none
  detail : Option String := none
deriving Repr, DecidableEq

/-- `_validateNoAccidentalWin`: first payline other than the expected one
whose scan finds a run of ≥ 3. -/
def validateNoAccidentalWin (gameRule : GameRule) (grid : Grid)
    (expectedWinLine : Option Nat) : SafetyResult :=
  match (List.range gameRule.paylines.length).findSome? (fun paylineIndex =>
      if expectedWinLine == some paylineIndex then none
      else if lineHasRunScan (lineSymbols grid (gameRule.paylines.getD paylineIndex [])) then
        some paylineIndex
      else none) with
  | some paylineIndex =>
    { isSafe := false, reason := some ("ACCIDENTAL_WIN_PAYLINE_" ++ toString paylineIndex),
      detail := some "ACCIDENTAL_WIN_CREATED" }
  | none => { isSafe := true }

/-- `_validateSafety`: for WIN, the anti-extend check on the win line then
the accidental-win scan sparing that line; for everything else the
accidental-win scan over all lines. -/
def validateSafety (gameRule : GameRule) (grid : Grid) (outcome : Outcome)
    (winLine : Option Nat) : SafetyResult :=
  if outcome.type == "WIN" then
    let antiExtendHit :=
      match winLine with
      | some wl =>
        if wl < gameRule.paylines.length then
          let payline := gameRule.paylines.getD wl []
          let matchCount := match outcome.winConfig with
            | some wc => wc.matchCount
            | none => 0
          let winSymbolId := match outcome.winConfig with
            | some wc => some wc.symbolId
            | none => none
          (payline.drop matchCount).any (fun rc =>
            match winSymbolId with
            | some w => gridGet grid rc.1 rc.2 == w
            | none => false)
        else false
      | none => false
    if antiExtendHit then
      { isSafe := false, reason := some "ANTI_EXTEND_VIOLATION",
        detail := some "ANTI_EXTEND_VIOLATION" }
    else validateNoAccidentalWin gameRule grid winLine
  else validateNoAccidentalWin gameRule grid none

/-- Return record of `applyConstraints` (grid + telemetry). -/
structure VCResult where
  grid : Grid
  telemetry : Telemetry
deriving Repr, DecidableEq

/-- `_finalizeTelemetry`: normalize `visualApplied` to
`visualAppliedType != 'NONE'` and clear the final-fail fields on success or
when no effect was requested (the source also joins the attempt-reason list
into a `';'` string for CSV; the list form is kept here). -/
def finalizeTelemetry (telemetry : Telemetry) (finalGrid : Grid) : VCResult :=
  let applied := telemetry.visualAppliedType != "NONE"
  let requested :=
    telemetry.visualRequestedType != "" && telemetry.visualRequestedType != "NONE"
  let t2 := { telemetry with visualApplied := applied }
  let t3 :=
    if applied then
      { t2 with visualGuardFailReason := some "", visualGuardFailDetail := some "" }
    else if !requested then
      { t2 with visualGuardFailReason := some "", visualGuardFailDetail := some "" }
    else t2
  { grid := finalGrid, telemetry := t3 }

/-- The Phase-2 re-application inside the retry loop (Phase 1 results are
preserved; only the general optimization is redone). -/
def phase2Reapply (symbols : List Symbol) (gameRule : GameRule) (outcome : Outcome)
    (expectedWinLine : Option Nat) (protectedCells : List (Nat × Nat)) (g : Grid)
    (rng : RNG) : Except String (Grid × RNG) :=
  if outcome.type == "WIN" then
    applyWinGeneralOptimization symbols gameRule g outcome expectedWinLine rng protectedCells
  else applyLossGeneralOptimization symbols gameRule g rng

/-- Phase 3 of `applyConstraints`: bounded retries of
forbidden-symbol scan → safety scan → (on failure) Phase-2 re-application.
Exhaustion (`fuel = 0`) discards all augmentation and finalizes with the
pre-augmentation `baseGrid`, recording `MAX_RETRIES`. -/
def phase3Loop (vcfg : VisualConfig) (symbols : List Symbol) (gameRule : GameRule)
    (outcome : Outcome) (expectedWinLine : Option Nat) (protectedCells : List (Nat × Nat))
    (baseGrid : Grid) :
    Nat → Nat → Grid → RNG → Telemetry → Option String → Option String →
    Except String (VCResult × RNG)
  | 0, _, _, rng, tel, _, _ =>
    let tel2 := { tel with
      visualAppliedType := "NONE"
      visualAttemptReasons := tel.visualAttemptReasons ++ ["MAX_RETRIES"] }
    let lastDetail2 := "MAX_RETRIES maxRetries=" ++
      toString (if vcfg.maxRetries = 0 then 10 else vcfg.maxRetries)
    let tel3 := { tel2 with
      visualGuardFailReason := some "MAX_RETRIES"
      visualGuardFailDetail := some lastDetail2 }
    .ok (finalizeTelemetry tel3 baseGrid, rng)
  | fuel + 1, attempt, g, rng, tel, lastReason, lastDetail =>
    let tel1 := { tel with visualAttemptsUsed := attempt + 1 }
    match checkForbiddenSymbols symbols gameRule g outcome expectedWinLine with
    | some det =>
      let tel2 := { tel1 with
        visualAttemptReasons := tel1.visualAttemptReasons ++ ["FORBIDDEN_SYMBOL_DETECTED"] }
      match phase2Reapply symbols gameRule outcome expectedWinLine protectedCells g rng with
      | .error e => .error e
      | .ok (g2, rng2) =>
        phase3Loop vcfg symbols gameRule outcome expectedWinLine protectedCells baseGrid
          fuel (attempt + 1) g2 rng2 tel2 (some "FORBIDDEN_SYMBOL_DETECTED") (some det)
    | none =>
      let sres := validateSafety gameRule g outcome expectedWinLine
      if sres.isSafe then
        let tel2 := { tel1 with
          visualAttemptReasons := tel1.visualAttemptReasons ++ ["SUCCESS"]
          visualAppliedType := tel1.visualRequestedType
          visualGuardFailReason := some ""
          visualGuardFailDetail := some "" }
        .ok (finalizeTelemetry tel2 g, rng)
      else
        let tel2 := { tel1 with visualAttemptReasons :=
          tel1.visualAttemptReasons ++ (match sres.reason with
            | some r => [r]
            | none => []) }
        let lastReason2 := match sres.reason with
          | some r => some r
          | none => lastReason
        let lastDetail2 := match sres.detail with
          | some d => some d
          | none => lastDetail
        match phase2Reapply symbols gameRule outcome expectedWinLine protectedCells g rng with
        | .error e => .error e
        | .ok (g2, rng2) =>
          phase3Loop vcfg symbols gameRule outcome expectedWinLine protectedCells baseGrid
            fuel (attempt + 1) g2 rng2 tel2 lastReason2 lastDetail2

/-- The `winLineFromEvents` derivation repeated three times in
`applyConstraints` (tease win line, Phase-2 win line, Phase-3 expected win
line): `winEvents[0].paylineIndex` if defined, else the legacy win line. -/
def winLineFromEvents (winEvents : List WinEvent) (legacyWinLine : Option Nat) : Option Nat :=
  match winEvents with
  | e :: _ => if e.paylineIndex.isSome then e.paylineIndex else legacyWinLine
  | [] => legacyWinLine

/-- Phase 1 of `applyConstraints`: apply the tease when requested (also
committing the cooldown/rate-limit bookkeeping to the caller-owned state),
else the near-miss for eligible LOSS outcomes, else nothing. -/
def phase1Apply (vcfg : VisualConfig) (symbols : List Symbol) (gameRule : GameRule)
    (grid : Grid) (outcome : Outcome) (wlEvents : Option Nat)
    (protectedCells : List (Nat × Nat)) (teaseCheck : TeaseCheck) (tel1 : Telemetry)
    (rng1 : RNG) (vstate1 : Option VisualState) (safeContext : VisualContext) :
    Grid × Telemetry × RNG × Option VisualState :=
  if teaseCheck.requested then
    let vstate2 :=
      match vstate1 with
      | some st =>
        some { st with
          lastTeaseSpinIndex := some (safeContext.spinIndex.getD 0)
          teaseWindow := match st.teaseWindow with
            | some (start, cnt) => some (start, cnt + 1)
            | none => none }
      | none => none
    let telR := { tel1 with visualRequestedType := "TEASE" }
    let (gA, telA, rngA) :=
      applyTease symbols gameRule grid outcome wlEvents rng1 telR protectedCells
    (gA, telA, rngA, vstate2)
  else if isNearMiss vcfg outcome then
    let telR := { tel1 with visualRequestedType := "NEAR_MISS" }
    let (gA, telA, rngA) := applyNearMissLinePay vcfg symbols gameRule grid rng1 telR
    (gA, telA, rngA, vstate1)
  else (grid, tel1, rng1, vstate1)

/-- The initial Phase 2 of `applyConstraints` (WIN optimization, LOSS /
near-miss optimization, or nothing for other outcome types). -/
def phase2Initial (vcfg : VisualConfig) (symbols : List Symbol) (gameRule : GameRule)
    (outcome : Outcome) (expectedWinLine : Option Nat)
    (protectedCells : List (Nat × Nat)) (g1 : Grid) (rng2 : RNG) :
    Except String (Grid × RNG) :=
  if outcome.type == "WIN" then
    applyWinGeneralOptimization symbols gameRule g1 outcome expectedWinLine rng2 protectedCells
  else if outcome.type == "LOSS" || isNearMiss vcfg outcome then
    applyLossGeneralOptimization symbols gameRule g1 rng2
  else .ok (g1, rng2)

/-- The body of `applyConstraints` once the engine is enabled and the
context validated: seed the visual stream, run the tease gates and the three
phases. -/
def applyConstraintsCore (vcfg : VisualConfig) (symbols : List Symbol)
    (gameRule : GameRule) (grid : Grid) (outcome : Outcome) (winEvents : List WinEvent)
    (safeContext : VisualContext) (legacyWinLine : Option Nat)
    (vstate : Option VisualState) : Except String (VCResult × Option VisualState) :=
  let visualSeed := deriveVisualSeed vcfg safeContext
  let tel0 : Telemetry := { visualSeed := toString visualSeed }
  let visualRng := RNG.ofNat visualSeed
  -- the source deep-copies the caller's array; list values need no copy
  let baseGrid := grid
  let protectedCells := deriveProtectedCells gameRule winEvents legacyWinLine outcome
  match shouldTease vcfg outcome visualRng safeContext vstate with
  | (teaseCheck, rng1, vstate1) =>
    let tel1 := { tel0 with
      teaseEligible := teaseCheck.eligible
      teaseChanceUsed := teaseCheck.chanceUsed
      teaseRoll := teaseCheck.roll
      teaseBlockedBy := teaseCheck.blockedBy }
    let wlEvents := winLineFromEvents winEvents legacyWinLine
    match phase1Apply vcfg symbols gameRule grid outcome wlEvents protectedCells
        teaseCheck tel1 rng1 vstate1 safeContext with
    | (g1, tel2, rng2, vstate2) =>
      match phase2Initial vcfg symbols gameRule outcome wlEvents protectedCells g1 rng2 with
      | .error e => .error e
      | .ok (g2, rng3) =>
        let maxRetries := if vcfg.maxRetries = 0 then 10 else vcfg.maxRetries
        match phase3Loop vcfg symbols gameRule outcome wlEvents protectedCells
            baseGrid maxRetries 0 g2 rng3 tel2 none none with
        | .error e => .error e
        | .ok (res, _) => .ok (res, vstate2)

/-- `VisualConstraintEngine.applyConstraints` (v1.5.0 signature):
disabled engine / invalid context return the input grid untouched; otherwise
run `applyConstraintsCore`.  The caller-owned `visualState` is threaded as
an explicit optional value. -/
def VisualConstraintEngine.applyConstraints (vcfg : VisualConfig) (symbols : List Symbol)
    (gameRule : GameRule) (grid : Grid) (outcome : Outcome) (winEvents : List WinEvent)
    (context : Option VisualContext) (legacyWinLine : Option Nat)
    (vstate : Option VisualState) : Except String (VCResult × Option VisualState) :=
  let telemetry : Telemetry := {}
  if !vcfg.enabled then .ok ({ grid := grid, telemetry := telemetry }, vstate)
  else
    match ensureContext context outcome with
    | none => .ok ({ grid := grid, telemetry := telemetry }, vstate)
    | some safeContext =>
      applyConstraintsCore vcfg symbols gameRule grid outcome winEvents safeContext
        legacyWinLine vstate

/-! ## Pattern Resolver (resolver.js) -/

/-- Resolver configuration (`gameRule` + symbol catalog). -/
structure ResolverConfig where
  gameRule : GameRule
  symbols : List Symbol
deriving Repr, DecidableEq

/-- The resolver's background filler weights (`fillerWeights[type] || 1`). -/
def fillerWeightsR (t : String) : Nat :=
  if t == "LOW" then 50 else if t == "MID" then 30 else if t == "HIGH" then 15
  else if t == "WILD" then 4 else if t == "SCATTER" then 1 else 1

/-- A grid under construction: unfilled cells are `none` (JS `null`). -/
abbrev PartialGrid := List (List (Option String))

/-- The all-`null` rows×cols grid the resolver starts from. -/
def emptyPartialGrid (rows cols : Nat) : PartialGrid :=
  List.replicate rows (List.replicate cols none)

/-- Read a cell of a partial grid. -/
def pgridGet (g : PartialGrid) (r c : Nat) : Option String := (g.getD r []).getD c none

/-- Write a cell of a partial grid. -/
def pgridSet (g : PartialGrid) (r c : Nat) (v : String) : PartialGrid :=
  g.set r ((g.getD r []).set c (some v))

/-- View a fully filled partial grid as a `Grid`. -/
def pgridToGrid (g : PartialGrid) : Grid := g.map (fun row => row.map (fun x => x.getD ""))

/-- The weighted-pool branch of `_getFillerSymbol` (push each symbol
`weight` times, pick uniformly; the `symbols[0]` fallback throws on an empty
catalog). -/
def weightedPoolPickR (cfg : ResolverConfig) (rng : RNG) : Except String (String × RNG) :=
  match cfg.symbols.flatMap (fun s => List.replicate (fillerWeightsR s.type) s) with
  | p0 :: prest =>
    let (sym, rng2) := rng.selectFromArrayD (p0 :: prest) p0
    .ok (sym.id, rng2)
  | [] =>
    match cfg.symbols with
    | s :: _ => .ok (s.id, rng)
    | [] => .error "TypeError: no symbols available"

/-- `_getFillerSymbol` (its `payline`/`row`/`col` parameters are unused in
the source body and dropped): LOW/MID symbols 70% of the time when any
exist, else the weighted pool over the whole catalog. -/
def PatternResolver.getFillerSymbol (cfg : ResolverConfig) (rng : RNG) :
    Except String (String × RNG) :=
  let lowMidSymbols := cfg.symbols.filter (fun s => s.type == "LOW" || s.type == "MID")
  match lowMidSymbols with
  | lm0 :: lmrest =>
    let (s, rng2) := rng.next
    if s * 10 < 30064771072 then
      let (sym, rng3) := rng2.selectFromArrayD (lm0 :: lmrest) lm0
      .ok (sym.id, rng3)
    else weightedPoolPickR cfg rng2
  | [] => weightedPoolPickR cfg rng

/-- The fill-remaining-cells loop shared by all resolver paths: walk the
cells row-major and draw a filler for every still-`null` cell. -/
def fillCells (cfg : ResolverConfig) :
    List (Nat × Nat) → PartialGrid → RNG → Except String (PartialGrid × RNG)
  | [], g, rng => .ok (g, rng)
  | rc :: rest, g, rng =>
    match pgridGet g rc.1 rc.2 with
    | some _ => fillCells cfg rest g rng
    | none =>
      match PatternResolver.getFillerSymbol cfg rng with
      | .error e => .error e
      | .ok (sid, rng2) => fillCells cfg rest (pgridSet g rc.1 rc.2 sid) rng2

/-- `PatternResolver._validateGrid`: every payline other than
`expectedWinLine` must be free of a run of ≥ 3 consecutive identical
symbols (the source's early-return scan is expressed as the equivalent
conjunction over payline indices). -/
def PatternResolver.validateGrid (cfg : ResolverConfig) (grid : Grid)
    (expectedWinLine : Option Nat) : Bool :=
  (List.range cfg.gameRule.paylines.length).all (fun paylineIndex =>
    expectedWinLine == some paylineIndex ||
    !lineHasRunScan (lineSymbols grid (cfg.gameRule.paylines.getD paylineIndex [])))

/-- The alternate-fill walk along one payline in `_generateLossGrid`:
position `i` takes `lowMidSymbols[i % length]`.  With an empty LOW/MID list
the source indexes `lowMidSymbols[NaN]` and crashes reading `.id`; that is
the error case. -/
def lossPaylineFill (lowMid : List Symbol) :
    List (Nat × Nat) → Nat → PartialGrid → Except String PartialGrid
  | [], _, g => .ok g
  | rc :: rest, i, g =>
    match pgridGet g rc.1 rc.2 with
    | some _ => lossPaylineFill lowMid rest (i + 1) g
    | none =>
      match lowMid.get? (i % lowMid.length) with
      | none => .error "TypeError: cannot read id of undefined"
      | some s => lossPaylineFill lowMid rest (i + 1) (pgridSet g rc.1 rc.2 s.id)

/-- Fold the alternate fill over all paylines. -/
def lossAllPaylines (lowMid : List Symbol) :
    List Payline → PartialGrid → Except String PartialGrid
  | [], g => .ok g
  | pl :: rest, g =>
    match lossPaylineFill lowMid pl 0 g with
    | .error e => .error e
    | .ok g2 => lossAllPaylines lowMid rest g2

/-- `_generateLossGrid`: alternate-fill the paylines with LOW/MID symbols,
then fill whatever cells remain with the weighted filler. -/
def PatternResolver.generateLossGrid (cfg : ResolverConfig) (rng : RNG) :
    Except String (Grid × RNG) :=
  let lowMidSymbols := cfg.symbols.filter (fun s => s.type == "LOW" || s.type == "MID")
  match lossAllPaylines lowMidSymbols cfg.gameRule.paylines
      (emptyPartialGrid cfg.gameRule.rows cfg.gameRule.cols) with
  | .error e => .error e
  | .ok g1 =>
    match fillCells cfg (cellList cfg.gameRule.rows cfg.gameRule.cols) g1 rng with
    | .error e => .error e
    | .ok (g2, rng2) => .ok (pgridToGrid g2, rng2)

/-- `_fixCollisions` along one payline: on the third consecutive identical
symbol substitute a random different LOW/MID symbol and reset the counter;
**when no different LOW/MID symbol exists the cell is left unchanged**. -/
def fixCollisionsLine (cfg : ResolverConfig) :
    List (Nat × Nat) → Grid → RNG → Nat → Option String → Grid × RNG
  | [], g, rng, _, _ => (g, rng)
  | rc :: rest, g, rng, cnt, last =>
    let cur := gridGet g rc.1 rc.2
    if some cur == last then
      let cnt2 := cnt + 1
      if 3 ≤ cnt2 then
        match cfg.symbols.filter
            (fun s => (s.type == "LOW" || s.type == "MID") && s.id != cur) with
        | d0 :: drest =>
          let (sym, rng2) := rng.selectFromArrayD (d0 :: drest) d0
          fixCollisionsLine cfg rest (gridSet g rc.1 rc.2 sym.id) rng2 1 (some sym.id)
        | [] => fixCollisionsLine cfg rest g rng cnt2 last
      else fixCollisionsLine cfg rest g rng cnt2 last
    else fixCollisionsLine cfg rest g rng 1 (some cur)

/-- `_fixCollisions`: the per-payline sweep over all paylines. -/
def PatternResolver.fixCollisions (cfg : ResolverConfig) :
    List Payline → Grid → RNG → Grid × RNG
  | [], g, rng => (g, rng)
  | pl :: rest, g, rng =>
    let (g2, rng2) := fixCollisionsLine cfg pl g rng 1 none
    PatternResolver.fixCollisions cfg rest g2 rng2

/-- Result record of the resolver (`{ grid, winLine, patternSource, … }`). -/
structure ResolveOut where
  grid : Grid
  winLine : Option Nat
  patternSource : String := "NONE"
  winConditionType : Option String := none
  anchorsCount : Option Nat := none
  visualTelemetry : Option Telemetry := none
deriving Repr, DecidableEq

/-- The `_resolveLoss` attempt loop: up to 10 regenerate-and-validate
attempts; on exhaustion regenerate once more and force-fix collisions. -/
def lossAttemptLoop (cfg : ResolverConfig) : Nat → RNG → Except String (ResolveOut × RNG)
  | 0, rng =>
    match PatternResolver.generateLossGrid cfg rng with
    | .error e => .error e
    | .ok (g, rng2) =>
      let (g2, rng3) := PatternResolver.fixCollisions cfg cfg.gameRule.paylines g rng2
      .ok ({ grid := g2, winLine := none }, rng3)
  | n + 1, rng =>
    match PatternResolver.generateLossGrid cfg rng with
    | .error e => .error e
    | .ok (g, rng2) =>
      if PatternResolver.validateGrid cfg g none then
        .ok ({ grid := g, winLine := none }, rng2)
      else lossAttemptLoop cfg n rng2

/-- `_resolveLoss`: bounded attempts, then the forced-break fallback. -/
def PatternResolver.resolveLoss (cfg : ResolverConfig) (rng : RNG) :
    Except String (ResolveOut × RNG) :=
  lossAttemptLoop cfg 10 rng

/-- The retry loop inside `_resolveWin`: each retry calls `_resolveWin`
recursively (hence the fuel), re-validates, and returns the first valid
grid; after 10 failing retries the source throws. -/
def winRetryLoop (cfg : ResolverConfig)
    (f : RNG → Except String (ResolveOut × RNG)) (failMsg : String) :
    Nat → RNG → Except String (ResolveOut × RNG)
  | 0, _ => .error failMsg
  | n + 1, rng =>
    match f rng with
    | .error e => .error e
    | .ok (res, rng2) =>
      if PatternResolver.validateGrid cfg res.grid res.winLine then .ok (res, rng2)
      else winRetryLoop cfg f failMsg n rng2

/-- `_resolveWin` (legacy WIN path): random payline, `matchCount` symbols
from its start, weighted fill, validate; on failure the recursive retry
loop.  The recursion is unbounded in the source (each retry re-enters
`_resolveWin`), so a fuel parameter models the call stack; `fuel = 0`
is the stack-overflow outcome. -/
def PatternResolver.resolveWin (cfg : ResolverConfig) (outcome : Outcome) :
    Nat → RNG → Except String (ResolveOut × RNG)
  | 0, _ => .error "RangeError: maximum call stack size exceeded"
  | fuel2 + 1, rng =>
    match outcome.winConfig with
    | none => .error "TypeError: cannot destructure winConfig"
    | some wc =>
      let (selectedPaylineIndex, rng1) := rng.randomInt cfg.gameRule.paylines.length
      match cfg.gameRule.paylines.get? selectedPaylineIndex with
      | none => .error "TypeError: selected payline is undefined"
      | some selectedPayline =>
        let g0 := (selectedPayline.take wc.matchCount).foldl
          (fun acc rc => pgridSet acc rc.1 rc.2 wc.symbolId)
          (emptyPartialGrid cfg.gameRule.rows cfg.gameRule.cols)
        match fillCells cfg (cellList cfg.gameRule.rows cfg.gameRule.cols) g0 rng1 with
        | .error e => .error e
        | .ok (pg, rng2) =>
          let grid := pgridToGrid pg
          if PatternResolver.validateGrid cfg grid (some selectedPaylineIndex) then
            .ok ({ grid := grid, winLine := some selectedPaylineIndex }, rng2)
          else
            winRetryLoop cfg (fun r => PatternResolver.resolveWin cfg outcome fuel2 r)
              ("unable to generate a valid WIN grid: " ++ outcome.id) 10 rng2

/-- Place the generated anchors on an empty grid. -/
def placeAnchors (g : PartialGrid) (anchors : List Anchor) : PartialGrid :=
  anchors.foldl (fun acc a => pgridSet acc a.row a.col a.symbolId) g

/-- The non-anchor refill of the `_resolveFromAnchors` retry loop. -/
def refillNonAnchors (cfg : ResolverConfig) (anchors : List Anchor) :
    List (Nat × Nat) → Grid → RNG → Except String (Grid × RNG)
  | [], g, rng => .ok (g, rng)
  | rc :: rest, g, rng =>
    if anchors.any (fun a => a.row == rc.1 && a.col == rc.2) then
      refillNonAnchors cfg anchors rest g rng
    else
      match PatternResolver.getFillerSymbol cfg rng with
      | .error e => .error e
      | .ok (sid, rng2) => refillNonAnchors cfg anchors rest (gridSet g rc.1 rc.2 sid) rng2

/-- The `_resolveFromAnchors` retry loop: up to 10 refills of the non-anchor
cells; **exhaustion returns the last (still invalid) grid unvalidated**. -/
def anchorsRetryLoop (cfg : ResolverConfig) (anchors : List Anchor)
    (expectedWinLine : Option Nat) :
    Nat → Grid → RNG → Except String (Grid × RNG)
  | 0, g, rng => .ok (g, rng)
  | n + 1, g, rng =>
    match refillNonAnchors cfg anchors (cellList cfg.gameRule.rows cfg.gameRule.cols) g rng with
    | .error e => .error e
    | .ok (g2, rng2) =>
      if PatternResolver.validateGrid cfg g2 expectedWinLine then .ok (g2, rng2)
      else anchorsRetryLoop cfg anchors expectedWinLine n g2 rng2

/-- `_resolveFromAnchors`: place anchors, fill, validate; on failure retry
re-filling the non-anchor cells up to 10 times; exhaustion returns the last
candidate grid with no forced break and no error. -/
def PatternResolver.resolveFromAnchors (cfg : ResolverConfig)
    (generatedInfo : GeneratedInfo) (rng : RNG) : Except String (ResolveOut × RNG) :=
  let g0 := placeAnchors (emptyPartialGrid cfg.gameRule.rows cfg.gameRule.cols)
    generatedInfo.anchors
  match fillCells cfg (cellList cfg.gameRule.rows cfg.gameRule.cols) g0 rng with
  | .error e => .error e
  | .ok (pg, rng2) =>
    let grid := pgridToGrid pg
    let expectedWinLine :=
      if generatedInfo.winConditionType == "LINE" then generatedInfo.generatedWinLine
      else none
    if PatternResolver.validateGrid cfg grid expectedWinLine then
      .ok ({ grid := grid, winLine := generatedInfo.generatedWinLine,
             patternSource := "GENERATED",
             winConditionType := some generatedInfo.winConditionType,
             anchorsCount := some generatedInfo.anchors.length }, rng2)
    else
      match anchorsRetryLoop cfg generatedInfo.anchors expectedWinLine 10 grid rng2 with
      | .error e => .error e
      | .ok (g2, rng3) =>
        .ok ({ grid := g2, winLine := generatedInfo.generatedWinLine,
               patternSource := "GENERATED",
               winConditionType := some generatedInfo.winConditionType,
               anchorsCount := some generatedInfo.anchors.length }, rng3)

/-- `PatternResolver.resolve`: decide the pattern source
(GENERATED / LEGACY / NONE), validate `winConfig.matchCount` bounds,
dispatch, then (when the visual engine is enabled) run the visual layer.
The resolver calls `applyConstraints` with its pre-v1.5.0 4-argument shape:
`patternResult.winLine` lands in the `winEvents` parameter (a number has no
`.length`, so every winEvents check behaves as if empty) and `legacyWinLine`
is absent, which is modelled as `winEvents = []`, `legacyWinLine = none`. -/
def PatternResolver.resolve (cfg : ResolverConfig) (visualEngine : Option VisualConfig)
    (outcome : Outcome) (context : Option VisualContext) (rng : RNG)
    (vstate : Option VisualState) (fuel : Nat) :
    Except String (ResolveOut × RNG × Option VisualState) :=
  let sourceInfo : Except String (String × Option GeneratedInfo × Option VisualContext) :=
    if outcome.type == "WIN" then
      match outcome.winCondition with
      | some wc =>
        let ctxN : VisualContext :=
          match context with
          | some c =>
            if c.spinIndex.isNone || jsOrDefault c.mathSeed "" == "" ||
                jsOrDefault c.outcomeId "" == "" then
              { spinIndex := some (c.spinIndex.getD 0)
                mathSeed := some (jsOrDefault c.mathSeed "default")
                outcomeId := some (jsOrDefault c.outcomeId outcome.id)
                visualSeed := c.visualSeed }
            else c
          | none =>
            { spinIndex := some 0, mathSeed := some "default", outcomeId := some outcome.id }
        match PatternGenerator.generate cfg.gameRule wc
            { spinIndex := ctxN.spinIndex.getD 0,
              mathSeed := jsOrDefault ctxN.mathSeed "default",
              outcomeId := jsOrDefault ctxN.outcomeId outcome.id } with
        | .error e => .error ("PatternGenerator generation failed (" ++ outcome.id ++ "): " ++ e)
        | .ok gi => .ok ("GENERATED", some gi, some ctxN)
      | none =>
        if outcome.hasLegacyPattern then .ok ("LEGACY", none, context)
        else .error ("WIN outcome " ++ outcome.id ++ " is missing a pattern definition")
    else .ok ("NONE", none, context)
  match sourceInfo with
  | .error e => .error e
  | .ok (patternSource, genInfo, ctxAfter) =>
    let mcCheck : Except String Unit :=
      if outcome.type == "WIN" then
        match outcome.winConfig with
        | some wc =>
          if cfg.gameRule.cols < wc.matchCount then
            .error ("matchCount (" ++ toString wc.matchCount ++ ") exceeds grid width (" ++
              toString cfg.gameRule.cols ++ ")")
          else if wc.matchCount < 2 then
            .error ("matchCount (" ++ toString wc.matchCount ++ ") must be at least 2")
          else .ok ()
        | none => .ok ()
      else .ok ()
    match mcCheck with
    | .error e => .error e
    | .ok _ =>
      let base : Except String (ResolveOut × RNG) :=
        if patternSource == "GENERATED" then
          match genInfo with
          | some gi => PatternResolver.resolveFromAnchors cfg gi rng
          | none => .error ("invalid patternSource: " ++ patternSource)
        else if patternSource == "LEGACY" then
          PatternResolver.resolveWin cfg outcome fuel rng
        else
          PatternResolver.resolveLoss cfg rng
      match base with
      | .error e => .error e
      | .ok (res0, rng2) =>
        let res1 := match genInfo with
          | some gi =>
            { res0 with
              patternSource := patternSource
              winConditionType := some gi.winConditionType
              anchorsCount := some gi.anchors.length }
          | none => { res0 with patternSource := patternSource }
        match visualEngine with
        | none => .ok (res1, rng2, vstate)
        | some vcfg =>
          let safeContext := match ctxAfter with
            | some c => c
            | none =>
              { spinIndex := some 0, mathSeed := some "default", outcomeId := some outcome.id }
          -- `visualState` travels inside the caller's context object; the
          -- fabricated fallback context has none
          let vs := if context.isSome then vstate else none
          match VisualConstraintEngine.applyConstraints vcfg cfg.symbols cfg.gameRule
              res1.grid outcome [] (some safeContext) none vs with
          | .error e => .error e
          | .ok (vres, vs2) =>
            let res2 := { res1 with grid := vres.grid, visualTelemetry := some vres.telemetry }
            .ok (res2, rng2, if context.isSome then vs2 else vstate)

/-! ## Strict Validator and the simulate round loop (simulate.js) -/

/-- JS `Math.round` (round half-up toward +∞) on an exact rational
`n / d` with `d > 0`: `⌊n/d + 1/2⌋ = (2n + d) / (2d)` in (Euclidean/floor)
integer division — see `jsRound_eq_floor`. -/
def jsRound (q : JSNum) : Int := (2 * q.num + (q.den : Int)) / (2 * (q.den : Int))

/-- The payload of the error `validateStrict` throws (the source formats
these three values into the message string). -/
structure ValidationError where
  expected : Int
  evaluated : Int
  outcomeId : String
deriving Repr, DecidableEq

/-- The record `validateStrict` returns. -/
structure StrictResult where
  expectedWinAmount : Int
  evaluatedWinAmount : Int
  evaluationMatch : Bool
deriving Repr, DecidableEq

/-- `validateStrict` (simulate.js v1.5.0): `expected = round(multiplier *
bet)`, `evaluated = Σ winAmount` (every event carries a numeric
`winAmount`, so the `|| 0` guard is the identity), throw on mismatch in
strict mode. -/
def validateStrict (outcome : Outcome) (bet : JSNum) (winEvents : List WinEvent)
    (strictMode : Bool) : Except ValidationError StrictResult :=
  let expectedWinAmount := jsRound (outcome.payoutMultiplier.mul bet)
  let evaluatedWinAmount := winEvents.foldl (fun sum e => sum + e.winAmount) 0
  let evaluationMatch := expectedWinAmount == evaluatedWinAmount
  if strictMode && !evaluationMatch then
    .error { expected := expectedWinAmount, evaluated := evaluatedWinAmount,
             outcomeId := outcome.id }
  else
    .ok { expectedWinAmount := expectedWinAmount, evaluatedWinAmount := evaluatedWinAmount,
          evaluationMatch := evaluationMatch }

/-- The weight-validating total of `weightedSelect`'s `reduce` (throws at
the first missing/negative weight). -/
def weightSum : List Outcome → JSNum → Except String JSNum
  | [], acc => .ok acc
  | o :: os, acc =>
    match o.weight with
    | some w =>
      if w.blt 0 then .error ("Invalid weight for outcome: " ++ o.id)
      else weightSum os (acc.add w)
    | none => .error ("Invalid weight for outcome: " ++ o.id)

/-- The accumulate-and-compare walk of `weightedSelect`. -/
def pickWeighted : List Outcome → JSNum → JSNum → Option Outcome
  | [], _, _ => none
  | o :: os, roll, acc =>
    let acc2 := acc.add (o.weight.getD 0)
    if roll.blt acc2 then some o else pickWeighted os roll acc2

/-- rng.js `weightedSelect`: validate weights, roll `random() * total`,
return the first outcome whose accumulated weight exceeds the roll (the
source falls back to the last outcome if none matches). -/
def RNG.weightedSelect (r : RNG) (outcomes : List Outcome) :
    Except String (Outcome × RNG) :=
  match outcomes with
  | [] => .error "Cannot select from empty outcomes array"
  | o :: os =>
    match weightSum (o :: os) 0 with
    | .error e => .error e
    | .ok total =>
      if total.num = 0 then .error "Total weight is zero"
      else
        let (q, r2) := r.randomQ
        let roll := q.mul total
        .ok ((pickWeighted (o :: os) roll 0).getD (os.getLastD o), r2)

/-- Simulation configuration (the parts of `config` the round loop reads). -/
structure SimConfig where
  baseOutcomes : List Outcome
  freeOutcomes : List Outcome
  gameRule : GameRule
  symbols : List Symbol
  visualConfig : Option VisualConfig := none
  baseBet : JSNum := 1
  freeSpinCount : Nat := 10
  seed : String := "default"
deriving Repr, DecidableEq

/-- The per-round observable outputs the determinism claim quantifies over. -/
structure RoundRecord where
  outcomeId : String
  grid : Grid
  winEvents : List WinEvent
  winAmount : Int
  telemetry : Option Telemetry
deriving Repr, DecidableEq

/-- The cross-round state of the simulate loop. -/
structure SimState where
  rng : RNG
  state : String := "BASE"
  freeSpinsRemaining : Nat := 0
  globalSpinIndex : Nat := 0
  baseSpins : Nat := 0
  freeGameSpinsCount : Nat := 0
  vstate : VisualState := {}
deriving Repr, DecidableEq

/-- One iteration of the simulate loop (simulate.js §6): check-in counters,
outcome selection, pattern resolution (which internally runs the visual
layer once with the resolver's legacy call shape), single-point payout
evaluation, `winAmount` wiring, strict validation, the v1.5.0 visual pass
with `winEvents`, and the FSM transition. -/
def runRound (cfg : SimConfig) (fuel : Nat) (st : SimState) :
    Except String (RoundRecord × SimState) :=
  let globalSpinIndex := st.globalSpinIndex + 1
  let baseSpins := if st.state == "BASE" then st.baseSpins + 1 else st.baseSpins
  let freeCnt := if st.state == "FREE" then st.freeGameSpinsCount + 1 else st.freeGameSpinsCount
  let outcomeTable := if st.state == "FREE" then cfg.freeOutcomes else cfg.baseOutcomes
  match st.rng.weightedSelect outcomeTable with
  | .error e => .error e
  | .ok (outcome, rng1) =>
    let context : VisualContext :=
      { spinIndex := some globalSpinIndex, mathSeed := some cfg.seed,
        outcomeId := some outcome.id }
    let vcfgFull := cfg.visualConfig.getD {}
    let visualEngine := if vcfgFull.enabled then some vcfgFull else none
    match PatternResolver.resolve { gameRule := cfg.gameRule, symbols := cfg.symbols }
        visualEngine outcome (some context) rng1 (some st.vstate) fuel with
    | .error e => .error e
    | .ok (patternResult, rng2, vstate1) =>
      if patternResult.grid.isEmpty then
        .error ("game must produce a valid grid (outcome=" ++ outcome.id ++ ")")
      else
        let (winEvents0, _) :=
          PayRuleEvaluator.evaluate { gameRule := cfg.gameRule, symbols := cfg.symbols }
            patternResult.grid
        let winEvents :=
          if outcome.type == "WIN" then
            match winEvents0 with
            | e :: rest =>
              { e with winAmount := jsRound (outcome.payoutMultiplier.mul cfg.baseBet) } :: rest
            | [] => []
          else winEvents0
        match validateStrict outcome cfg.baseBet winEvents true with
        | .error ve =>
          .error ("Validation mismatch: expected=" ++ toString ve.expected ++
            ", evaluated=" ++ toString ve.evaluated ++ ", outcome=" ++ ve.outcomeId)
        | .ok validationResult =>
          let winAmount := validationResult.evaluatedWinAmount
          let visualStep : Except String (Grid × Option Telemetry × Option VisualState) :=
            match visualEngine with
            | some vcfg =>
              match VisualConstraintEngine.applyConstraints vcfg cfg.symbols cfg.gameRule
                  patternResult.grid outcome winEvents (some context) patternResult.winLine
                  vstate1 with
              | .error e => .error e
              | .ok (vres, vs2) => .ok (vres.grid, some vres.telemetry, vs2)
            | none => .ok (patternResult.grid, patternResult.visualTelemetry, vstate1)
          match visualStep with
          | .error e => .error e
          | .ok (finalGrid, tel, vstate2) =>
            let (state1, freeRem1, justTriggered) :=
              if st.state == "BASE" && outcome.type == "FEATURE" then
                ("FREE", cfg.freeSpinCount, true)
              else (st.state, st.freeSpinsRemaining, false)
            let (state2, freeRem2) :=
              if state1 == "FREE" && !justTriggered then
                let fr := freeRem1 - 1
                if fr = 0 then ("BASE", 0) else ("FREE", fr)
              else (state1, freeRem1)
            .ok ({ outcomeId := outcome.id, grid := finalGrid, winEvents := winEvents,
                   winAmount := winAmount, telemetry := tel },
                 { rng := rng2, state := state2, freeSpinsRemaining := freeRem2,
                   globalSpinIndex := globalSpinIndex, baseSpins := baseSpins,
                   freeGameSpinsCount := freeCnt, vstate := vstate2.getD st.vstate })

/-- Iterate `runRound` for a fixed number of rounds, threading the state. -/
def runRounds (cfg : SimConfig) (fuel : Nat) :
    Nat → SimState → Except String (List RoundRecord × SimState)
  | 0, st => .ok ([], st)
  | n + 1, st =>
    match runRound cfg fuel st with
    | .error e => .error e
    | .ok (r, st2) =>
      match runRounds cfg fuel n st2 with
      | .error e => .error e
      | .ok (recs, st3) => .ok (r :: recs, st3)

/-- The initial state of a simulation: the math RNG is seeded from the
seed string, the FSM starts in BASE, the caller-owned visual state is
fresh. -/
def initialSimState (cfg : SimConfig) : SimState :=
  { rng := RNG.ofString cfg.seed }

/-- Run `rounds` iterations of the per-round pipeline from the seed. -/
def runSimulation (cfg : SimConfig) (fuel : Nat) (rounds : Nat) :
    Except String (List RoundRecord × SimState) :=
  runRounds cfg fuel rounds (initialSimState cfg)

/-- Decidable equality on `Except`, used to evaluate the embedding at the
concrete counterexample and witness inputs. -/
instance {ε α : Type} [DecidableEq ε] [DecidableEq α] : DecidableEq (Except ε α) := fun x y =>
  match x, y with
  | .ok a, .ok b =>
    match decEq a b with
    | isTrue h => isTrue (by rw [h])
    | isFalse h => isFalse (by intro hc; cases hc; exact h rfl)
  | .error a, .error b =>
    match decEq a b with
    | isTrue h => isTrue (by rw [h])
    | isFalse h => isFalse (by intro hc; cases hc; exact h rfl)
  | .ok _, .error _ => isFalse (by intro hc; cases hc)
  | .error _, .ok _ => isFalse (by intro hc; cases hc)

/-! ## Specification-side predicates and concrete instances -/

/-- A cleared failure field: JS `null` or the explicitly assigned `''`. -/
def clearedField (o : Option String) : Prop := o = none ∨ o = some ""

/-- The telemetry invariant of claim C9: the applied flag equals
`visualAppliedType != 'NONE'`, and the guard-failure fields are cleared
whenever the effect was applied or never requested. -/
def telemetryInvariant (tel : Telemetry) : Prop :=
  tel.visualApplied = (tel.visualAppliedType != "NONE") ∧
  ((tel.visualApplied = true ∨ tel.visualRequestedType = "NONE") →
    clearedField tel.visualGuardFailReason ∧ clearedField tel.visualGuardFailDetail)

/-- The index of the first payline qualifying in the amended claim C3 sense. -/
def firstQualIdx (cfg : EvalConfig) (grid : Grid) : List Payline → Option Nat
  | [] => none
  | pl :: rest =>
    if lineQualifies cfg grid pl then some 0
    else (firstQualIdx cfg grid rest).map (fun j => j + 1)

/-- Claim C1 counterexample configuration: a 1×3 grid with one payline and a
single LOW symbol, so the LOSS alternate fill produces an all-identical grid
and the forced break has no substitute symbol. -/
def cfgC1 : ResolverConfig :=
  { gameRule := { rows := 1, cols := 3, paylines := [[(0, 0), (0, 1), (0, 2)]] },
    symbols := [⟨"A", "LOW"⟩] }

/-- A plain LOSS outcome. -/
def outC1 : Outcome := { id := "LOSS_X", type := "LOSS" }

/-- Claim C1 witness configuration: two row paylines. -/
def cfgC1w : ResolverConfig :=
  { gameRule := { rows := 2, cols := 3, paylines := [[(0, 0), (0, 1), (0, 2)], [(1, 0), (1, 1), (1, 2)]] },
    symbols := [⟨"A", "LOW"⟩, ⟨"B", "LOW"⟩] }

/-- A witness grid whose only run of ≥ 3 lies on payline 0. -/
def gridC1w : Grid := [["A", "A", "A"], ["A", "B", "A"]]

/-- Claim C7 counterexample configuration: two paylines over the same three
cells and a single symbol, so every legacy-WIN candidate grid is invalid. -/
def cfgC7 : ResolverConfig :=
  { gameRule := { rows := 1, cols := 3, paylines := [[(0, 0), (0, 1), (0, 2)], [(0, 2), (0, 1), (0, 0)]] },
    symbols := [⟨"A", "LOW"⟩] }

/-- A legacy-pattern WIN outcome for `cfgC7`. -/
def outC7 : Outcome :=
  { id := "WIN_X", type := "WIN", payoutMultiplier := 2,
    winConfig := some { symbolId := "A", matchCount := 3 }, hasLegacyPattern := true }

/-- A generated-anchors record for the C7 witness. -/
def giC7w : GeneratedInfo :=
  { anchors := [], generatedWinLine := none, winConditionType := "SCATTER" }

/-- Claim C3 evaluator configuration (an ANY_POSITION symbol and a LOW
symbol). -/
def cfgC3 : EvalConfig :=
  { gameRule := { rows := 1, cols := 3, paylines := [[(0, 0), (0, 1), (0, 2)]] },
    symbols := [⟨"A1", "ANY_POSITION"⟩, ⟨"L1", "LOW"⟩] }

/-- Claim C3 counterexample grid: a full run of a symbol that is not in the
catalog. -/
def gridC3x : Grid := [["X", "X", "X"]]

/-- Claim C3 witness grid: a catalogued LINE win. -/
def gridC3w : Grid := [["L1", "L1", "L1"]]

/-- Claims C4/C9 witness configuration: a single LOW symbol, so every
Phase-2 redistribution yields an all-`L1` grid that fails the LOSS
accidental-win scan, exhausting the retries. -/
def grC4 : GameRule := { rows := 1, cols := 3, paylines := [[(0, 0), (0, 1), (0, 2)]] }

/-- The single-symbol catalog of the C4/C9 witness. -/
def symsC4 : List Symbol := [⟨"L1", "LOW"⟩]

/-- The LOSS outcome of the C4/C9 witness. -/
def outC4 : Outcome := { id := "LOSS_X", type := "LOSS" }

/-- The pre-augmentation grid of the C4/C9 witness. -/
def gridC4 : Grid := [["A", "B", "C"]]

/-- The round context of the C4/C9 witness. -/
def ctxC4 : VisualContext :=
  { spinIndex := some 1, mathSeed := some "12345", outcomeId := some "LOSS_X" }

/-- The C4/C9 witness run of `applyConstraints` (defaults: engine enabled,
10 retries). -/
def applyC4 : Except String (VCResult × Option VisualState) :=
  VisualConstraintEngine.applyConstraints {} symsC4 grC4 gridC4 outC4 [] (some ctxC4)
    none (some {})

/-- The result record of the C4/C9 witness run. -/
def vcResC4 : VCResult :=
  (applyC4.toOption.map Prod.fst).getD { grid := [], telemetry := {} }

/-- The returned visual state of the C4/C9 witness run. -/
def vsC4 : Option VisualState := (applyC4.toOption.map Prod.snd).getD none

/-- Claim C5 witness configuration: a single LOSS outcome, two LOW symbols,
visual layer disabled. -/
def cfgC5 : SimConfig :=
  { baseOutcomes := [{ id := "LOSS_A", type := "LOSS", weight := some 1 }],
    freeOutcomes := [{ id := "LOSS_A", type := "LOSS", weight := some 1 }],
    gameRule := { rows := 1, cols := 3, paylines := [[(0, 0), (0, 1), (0, 2)]] },
    symbols := [⟨"L1", "LOW"⟩, ⟨"L2", "LOW"⟩],
    visualConfig := some { enabled := false },
    baseBet := 10, freeSpinCount := 10, seed := "12345" }

/-- The independently written-out result of the C5 witness run. -/
def simOutC5 : Except String (List RoundRecord × SimState) :=
  .ok ([{ outcomeId := "LOSS_A", grid := [["L1", "L2", "L1"]], winEvents := [],
          winAmount := 0, telemetry := none },
        { outcomeId := "LOSS_A", grid := [["L1", "L2", "L1"]], winEvents := [],
          winAmount := 0, telemetry := none }],
       { rng := { seed := 1457823453 }, state := "BASE", freeSpinsRemaining := 0,
         globalSpinIndex := 2, baseSpins := 2, freeGameSpinsCount := 0, vstate := {} })

/-- Claim C6 failing input, as the visual engine's context record. -/
def ctxC6 : VisualContext :=
  { spinIndex := some 1, mathSeed := some "12345", outcomeId := some "SMALL_WIN" }

/-- Claim C6 failing input, as the canonical derivation's context record. -/
def seedCtxC6 : SeedContext :=
  { mathSeed := some "12345", spinIndex := some 1, outcomeId := some "SMALL_WIN" }

/-- Claim C8 failing input: a 1×3 grid with one payline covering all cells,
so three scatter anchors always fail the anchors-only self-check. -/
def grC8 : GameRule := { rows := 1, cols := 3, paylines := [[(0, 0), (0, 1), (0, 2)]] }

/-- The SCATTER win condition of the C8 failing input. -/
def wcC8 : WinCondition := { type := "SCATTER", symbolId := some "S1", minCount := some 3 }

/-- The generator context of the C8 failing input. -/
def ctxC8 : GenContext := { spinIndex := 1, mathSeed := "12345", outcomeId := "SC_WIN" }

/-- The anchors of every C8 attempt (all three cells, in selection order). -/
def anchorsC8 : List Anchor := [⟨0, 2, "S1"⟩, ⟨0, 0, "S1"⟩, ⟨0, 1, "S1"⟩]

/-- Claim C2 witness outcome. -/
def outW2 : Outcome := { id := "WIN_W", type := "WIN", payoutMultiplier := 2 }

/-- Claim C2 witness event. -/
def evW2 : WinEvent :=
  { eventId := "LINE_0_H1_3", ruleType := "LINE", winAmount := 20, paidSymbolId := "H1",
    displaySymbolId := "H1", positions := [(0, 0), (0, 1), (0, 2)], matchCount := 3,
    paylineIndex := some 0 }

/-- Claim C2 witness result record. -/
def rW2 : StrictResult :=
  { expectedWinAmount := 20, evaluatedWinAmount := 20, evaluationMatch := true }

/-! ## Lemmas: the evaluator never writes to the grid (claim C10) -/

theorem readLine_snd (grid : Grid) :
    ∀ pl : Payline, (readLine grid pl).2 = grid := by
  intro pl
  induction pl with
  | nil => rfl
  | cons rc rest ih =>
    obtain ⟨row, col⟩ := rc
    simp only [readLine]
    split
    · cases h : readLine grid rest with
      | mk o g2 =>
        cases o <;> simp_all
    · rfl

theorem evalLinePay_snd (cfg : EvalConfig) (grid : Grid) (pl : Payline) (idx : Nat) :
    (evalLinePay cfg grid pl idx).2 = grid := by
  simp only [evalLinePay]
  split
  · rfl
  · have hr := readLine_snd grid pl
    cases h : readLine grid pl with
    | mk o g2 =>
      rw [h] at hr
      cases o with
      | none => simpa [h]
      | some l =>
        cases l with
        | nil => simpa [h]
        | cons hd tl =>
          obtain ⟨s0, r0, c0⟩ := hd
          simp only [h]
          split
          · exact hr
          · split
            · exact hr
            · exact hr

theorem evalFirstLine_snd (cfg : EvalConfig) :
    ∀ (pls : List Payline) (grid : Grid) (idx : Nat),
      (evalFirstLine cfg grid idx pls).2 = grid := by
  intro pls
  induction pls with
  | nil => intro grid idx; rfl
  | cons pl rest ih =>
    intro grid idx
    simp only [evalFirstLine]
    have he := evalLinePay_snd cfg grid pl idx
    cases h : evalLinePay cfg grid pl idx with
    | mk o g2 =>
      rw [h] at he
      cases o with
      | some e => simpa using he
      | none =>
        simp only
        rw [ih g2 (idx + 1)]
        exact he

theorem evalAnyPositionPay_snd (cfg : EvalConfig) (grid : Grid) :
    (evalAnyPositionPay cfg grid).2 = grid := by
  simp only [evalAnyPositionPay]
  split
  · rfl
  · split <;> rfl

/-- Claim C10: `PayRuleEvaluator.evaluate` never modifies the grid it is
given — every grid read is threaded through the embedding, and the grid
value returned alongside the events is exactly the input: the evaluator
only reads cells and allocates new `WinEvent` structures. -/
theorem evaluate_never_mutates_grid (cfg : EvalConfig) (grid : Grid) :
    (PayRuleEvaluator.evaluate cfg grid).2 = grid := by
  simp only [PayRuleEvaluator.evaluate]
  split
  · rfl
  · have hf := evalFirstLine_snd cfg cfg.gameRule.paylines grid 0
    cases h : evalFirstLine cfg grid 0 cfg.gameRule.paylines with
    | mk o g2 =>
      rw [h] at hf
      cases o with
      | some e => simpa using hf
      | none =>
        simp only
        have ha := evalAnyPositionPay_snd cfg g2
        cases h2 : evalAnyPositionPay cfg g2 with
        | mk evs g3 =>
          rw [h2] at ha
          simp only
          exact ha.trans hf

/-! ## Claim C6: visual seed derivation -/

/-- Claim C6: the claim states the visual stream's seed equals
`RNG.deriveSubSeed('VISUAL', context)`, and the repository's P0-7 invariant
report states `_deriveVisualSeed()` uses `RNG.deriveSubSeed('VISUAL', …)`.
The code does not: `_deriveVisualSeed` hashes its own
`mathSeed:spinIndex:outcomeId:VISUAL:patchVersion` string (default patch
`v1.4.patch`), while `deriveSubSeed` hashes
`VISUAL|mathSeed|spinIndex|outcomeId|v1.5.0`.  At the concrete context
(mathSeed `12345`, spin 1, outcome `SMALL_WIN`) the two layouts and the two
resulting seeds differ, so the engine's seed is **not** the canonical
derivation — the second half of the claim (the layout `deriveSubSeed`
hashes) is exactly what the code does. -/
theorem visual_seed_derivation_bug :
    deriveVisualSeed {} ctxC6 = hashString "12345:1:SMALL_WIN:VISUAL:v1.4.patch" ∧
    RNG.deriveSubSeed "VISUAL" seedCtxC6 = hashString "VISUAL|12345|1|SMALL_WIN|v1.5.0" ∧
    deriveVisualSeed {} ctxC6 = 646508463 ∧
    RNG.deriveSubSeed "VISUAL" seedCtxC6 = 1208340844 ∧
    deriveVisualSeed {} ctxC6 ≠ RNG.deriveSubSeed "VISUAL" seedCtxC6 := by
  refine ⟨rfl, rfl, by decide, by decide, by decide⟩

/-! ## Claim C8: the SCATTER self-check retry seed -/

/-- Claim C8: the retry is bounded and exhaustion returns the last attempt's
anchors without an error — but the perturbed seed is **not** "derived seed +
retry offset".  `generate` passes the whole context object where
`_generateScatterAnchors` expects the numeric `derivedSeed`, so
`derivedSeed + retry + 1000` is JS string concatenation producing
`"[object Object]<retry>1000"`, whose hash differs from the numeric
`derivePatternSeed(context) + retry + 1000` the code's own comments (and the
spec) describe.  At the 1×3 failing input every attempt's anchors cover the
payline, the self-check fails ten times, and `generate` still returns the
last anchors. -/
theorem scatter_retry_seed_bug :
    PatternGenerator.generate grC8 wcC8 ctxC8 =
      .ok { anchors := anchorsC8, generatedWinLine := none,
            winConditionType := "SCATTER", patternSource := "GENERATED" } ∧
    checkAnchorsOnlyAccidentalWin grC8 anchorsC8 = true ∧
    scatterRetrySeedString 0 = "[object Object]01000" ∧
    hashString (scatterRetrySeedString 0) = 612809353 ∧
    derivePatternSeed ctxC8 + 0 + 1000 = 1431988597 ∧
    hashString (scatterRetrySeedString 0) ≠ derivePatternSeed ctxC8 + 0 + 1000 := by
  refine ⟨by decide, by decide, rfl, by decide, by decide, by decide⟩

/-! ## Claim C5: determinism of the per-round pipeline -/

/-- Claim C5: for every fixed seed and configuration, running the per-round
pipeline (outcome selection, grid resolution, payout evaluation, visual
augmentation, telemetry) for the same number of rounds twice produces
identical results — the embedded seeded pipeline is a pure function of the
configuration, seed and round count, so any two runs coincide.  (The
unseeded `Math.random()` legacy mode is outside the claim, which quantifies
over fixed seeds.) -/
theorem pipeline_deterministic (cfg : SimConfig) (fuel rounds : Nat)
    (r1 r2 : Except String (List RoundRecord × SimState))
    (h1 : r1 = runSimulation cfg fuel rounds)
    (h2 : r2 = runSimulation cfg fuel rounds) : r1 = r2 := by
  rw [h1, h2]

/-- Witness for C5: the two-round run of the concrete seeded configuration
equals its independently written-out result, via the determinism theorem. -/
theorem pipeline_deterministic_witness :
    simOutC5 = runSimulation cfgC5 50 2 :=
  pipeline_deterministic cfgC5 50 2 simOutC5 (runSimulation cfgC5 50 2) (by decide) rfl

/-! ## Claim C2: the strict validator -/

/-- The direct integer-division form of `jsRound` agrees with the
`Math.round` floor formula `⌊q + 1/2⌋` whenever the denominator is
positive (which holds at every construction site). -/
theorem jsRound_eq_floor (q : JSNum) (hd : 0 < q.den) :
    jsRound q = ⌊q.toRat + 1 / 2⌋ := by
  have hd0 : (q.den : ℚ) ≠ 0 := by positivity
  have hcast : q.toRat + 1 / 2 = ((2 * q.num + (q.den : Int) : Int) : ℚ) / ((2 * q.den : Nat) : ℚ) := by
    rw [JSNum.toRat]
    push_cast
    field_simp
    ring
  rw [hcast, Rat.floor_intCast_div_natCast, jsRound]
  norm_num

theorem foldl_winAmount_eq_sum :
    ∀ (l : List WinEvent) (init : Int),
      l.foldl (fun sum e => sum + e.winAmount) init =
        init + (l.map (fun e => e.winAmount)).sum := by
  intro l
  induction l with
  | nil => intro init; simp
  | cons e rest ih =>
    intro init
    simp only [List.foldl_cons, List.map_cons, List.sum_cons]
    rw [ih]
    ring

/-- Claim C2: `validateStrict` returns `expectedWinAmount =
round(payoutMultiplier * bet)` and `evaluatedWinAmount = Σ winAmount`; in
strict mode it throws exactly when the two differ (the error carrying the
outcome id and both amounts), and returns normally with
`evaluationMatch = true` when they are equal. -/
theorem validateStrict_contract (outcome : Outcome) (bet : JSNum) (winEvents : List WinEvent) :
    ((validateStrict outcome bet winEvents true).isOk = true ↔
      jsRound (outcome.payoutMultiplier.mul bet) =
        (winEvents.map (fun e => e.winAmount)).sum) ∧
    (∀ r, validateStrict outcome bet winEvents true = .ok r →
      r.expectedWinAmount = jsRound (outcome.payoutMultiplier.mul bet) ∧
      r.evaluatedWinAmount = (winEvents.map (fun e => e.winAmount)).sum ∧
      r.evaluationMatch = true) ∧
    (∀ err, validateStrict outcome bet winEvents true = .error err →
      err.outcomeId = outcome.id ∧
      err.expected = jsRound (outcome.payoutMultiplier.mul bet) ∧
      err.evaluated = (winEvents.map (fun e => e.winAmount)).sum ∧
      err.expected ≠ err.evaluated) := by
  have hsum : winEvents.foldl (fun sum e => sum + e.winAmount) 0 =
      (winEvents.map (fun e => e.winAmount)).sum := by
    rw [foldl_winAmount_eq_sum]; ring
  by_cases hm : jsRound (outcome.payoutMultiplier.mul bet) =
      (winEvents.map (fun e => e.winAmount)).sum
  · have hbeq : (jsRound (outcome.payoutMultiplier.mul bet) ==
        (winEvents.map (fun e => e.winAmount)).sum) = true := beq_iff_eq.mpr hm
    have hok : validateStrict outcome bet winEvents true =
        .ok { expectedWinAmount := jsRound (outcome.payoutMultiplier.mul bet),
              evaluatedWinAmount := (winEvents.map (fun e => e.winAmount)).sum,
              evaluationMatch := true } := by
      simp [validateStrict, hsum, hbeq]
    refine ⟨?_, ?_, ?_⟩
    · rw [hok]; exact ⟨fun _ => hm, fun _ => rfl⟩
    · intro r hr
      rw [hok] at hr
      injection hr with h
      rw [← h]
      exact ⟨rfl, rfl, rfl⟩
    · intro err herr
      rw [hok] at herr
      exact Except.noConfusion herr
  · have hbeq : (jsRound (outcome.payoutMultiplier.mul bet) ==
        (winEvents.map (fun e => e.winAmount)).sum) = false := by
      simpa using hm
    have herr0 : validateStrict outcome bet winEvents true =
        .error { expected := jsRound (outcome.payoutMultiplier.mul bet),
                 evaluated := (winEvents.map (fun e => e.winAmount)).sum,
                 outcomeId := outcome.id } := by
      simp [validateStrict, hsum, hbeq]
    refine ⟨?_, ?_, ?_⟩
    · rw [herr0]
      exact ⟨fun h => Bool.noConfusion h, fun h => absurd h hm⟩
    · intro r hr
      rw [herr0] at hr
      exact Except.noConfusion hr
    · intro err herr
      rw [herr0] at herr
      injection herr with h
      rw [← h]
      exact ⟨rfl, rfl, rfl, hm⟩

/-- Witness for C2: at the concrete WIN outcome with bet 10 and a single
event of amount 20 the validator returns the matching record. -/
theorem validateStrict_contract_witness :
    rW2.expectedWinAmount = jsRound (outW2.payoutMultiplier.mul 10) ∧
    rW2.evaluatedWinAmount = ([evW2].map (fun e => e.winAmount)).sum ∧
    rW2.evaluationMatch = true :=
  (validateStrict_contract outW2 10 [evW2]).2.1 rW2 (by decide)

/-! ## Claim C1: the accidental-win invariant -/

theorem hasRunOf3_cons_ne (s t : String) (r : List String) (h : (s == t) = false) :
    hasRunOf3 (s :: t :: r) = hasRunOf3 (t :: r) := by
  cases r with
  | nil => simp [hasRunOf3]
  | cons u r2 => simp [hasRunOf3, h]

theorem scanRun_eq_hasRunOf3 :
    ∀ rest : List String,
      (∀ s, scanRun s 1 rest = hasRunOf3 (s :: rest)) ∧
      (∀ s, scanRun s 2 rest = hasRunOf3 (s :: s :: rest)) := by
  intro rest
  induction rest with
  | nil =>
    constructor <;> intro s <;> simp [scanRun, hasRunOf3]
  | cons t r ih =>
    obtain ⟨ih1, ih2⟩ := ih
    constructor
    · intro s
      by_cases h : (t == s) = true
      · have ht : t = s := by simpa using h
        subst ht
        simp only [scanRun, if_pos h]
        rw [if_neg (by omega)]
        exact ih2 t
      · have hf : (t == s) = false := by simpa using h
        have hsf : (s == t) = false := by
          simp only [beq_eq_false_iff_ne] at hf ⊢
          exact fun hc => hf hc.symm
        simp only [scanRun, hf]
        rw [ih1 t, hasRunOf3_cons_ne s t r hsf]
        simp
    · intro s
      by_cases h : (t == s) = true
      · have ht : t = s := by simpa using h
        subst ht
        simp only [scanRun, if_pos h]
        rw [if_pos (by omega)]
        simp [hasRunOf3]
      · have hf : (t == s) = false := by simpa using h
        have hsf : (s == t) = false := by
          simp only [beq_eq_false_iff_ne] at hf ⊢
          exact fun hc => hf hc.symm
        simp only [scanRun, hf]
        rw [ih1 t]
        have hout : hasRunOf3 (s :: s :: t :: r) = hasRunOf3 (s :: t :: r) := by
          simp [hasRunOf3, hsf]
        rw [hout, hasRunOf3_cons_ne s t r hsf]
        simp

theorem lineHasRunScan_eq_hasRunOf3 (syms : List String) :
    lineHasRunScan syms = hasRunOf3 syms := by
  cases syms with
  | nil => rfl
  | cons s rest => exact (scanRun_eq_hasRunOf3 rest).1 s

/-- Claim C1 (amended): the grid-safety validator is exactly the intended
invariant — every grid it accepts has no run of ≥ 3 consecutive identical
symbols on any payline other than the expected win line.  This covers every
grid the resolver returns before retry exhaustion; the unamended claim
fails at exhaustion (see the counterexample: the LOSS forced break cannot
substitute when no alternative LOW/MID symbol exists, and the anchors path
returns its last candidate unvalidated). -/
theorem validateGrid_no_accidental_runs (cfg : ResolverConfig) (grid : Grid)
    (expectedWinLine : Option Nat)
    (hv : PatternResolver.validateGrid cfg grid expectedWinLine = true) :
    ∀ i, i < cfg.gameRule.paylines.length → some i ≠ expectedWinLine →
      hasRunOf3 (lineSymbols grid (cfg.gameRule.paylines.getD i [])) = false := by
  intro i hi hne
  have h := (List.all_eq_true.mp hv) i (List.mem_range.mpr hi)
  rw [Bool.or_eq_true] at h
  cases h with
  | inl h =>
    exact absurd (beq_iff_eq.mp h).symm hne
  | inr h =>
    rw [Bool.not_eq_true'] at h
    rw [← lineHasRunScan_eq_hasRunOf3]
    exact h

/-- Witness for C1 (amended): a concrete validated WIN grid whose only run
lies on the expected line; the other payline is run-free. -/
theorem validateGrid_no_accidental_runs_witness :
    PatternResolver.validateGrid cfgC1w gridC1w (some 0) = true ∧
    hasRunOf3 (lineSymbols gridC1w (cfgC1w.gameRule.paylines.getD 1 [])) = false :=
  ⟨by decide,
   validateGrid_no_accidental_runs cfgC1w gridC1w (some 0) (by decide) 1 (by decide)
     (by decide)⟩

/-- Counterexample to C1 as stated: with a single LOW symbol the LOSS path
exhausts its 10 attempts and the forced break finds no substitute, so
`resolve` returns a LOSS grid whose (only) payline carries a run of 3 —
for a LOSS outcome the claim demands that no payline contain such a run. -/
theorem resolver_loss_fallback_accidental_run :
    PatternResolver.resolve cfgC1 none outC1 none (RNG.ofNat 42) none 100 =
      .ok ({ grid := [["A", "A", "A"]], winLine := none, patternSource := "NONE",
             winConditionType := none, anchorsCount := none, visualTelemetry := none },
           { seed := 42 }, none) ∧
    outC1.type = "LOSS" ∧
    hasRunOf3 (lineSymbols [["A", "A", "A"]] (cfgC1.gameRule.paylines.getD 0 [])) = true := by
  refine ⟨by decide, rfl, by decide⟩

/-! ## Claim C7: error behavior of the resolver fallback paths -/

theorem fillerWeightsR_pos (t : String) : 1 ≤ fillerWeightsR t := by
  unfold fillerWeightsR
  split <;> first | omega | (split <;> first | omega | (split <;> first | omega |
    (split <;> first | omega | (split <;> omega))))

theorem weightedPoolPickR_isOk (cfg : ResolverConfig) (hs : cfg.symbols ≠ []) (rng : RNG) :
    (weightedPoolPickR cfg rng).isOk = true := by
  unfold weightedPoolPickR
  split
  · rfl
  · split
    · rfl
    · rename_i heq hnil
      exact absurd hnil hs

theorem getFillerSymbol_isOk (cfg : ResolverConfig) (hs : cfg.symbols ≠ []) (rng : RNG) :
    (PatternResolver.getFillerSymbol cfg rng).isOk = true := by
  simp only [PatternResolver.getFillerSymbol]
  cases hlm2 : cfg.symbols.filter (fun s => s.type == "LOW" || s.type == "MID") with
  | nil => exact weightedPoolPickR_isOk cfg hs rng
  | cons lm0 lmrest =>
    simp only
    split
    · rfl
    · exact weightedPoolPickR_isOk cfg hs _

theorem fillCells_isOk (cfg : ResolverConfig) (hs : cfg.symbols ≠ []) :
    ∀ (cells : List (Nat × Nat)) (g : PartialGrid) (rng : RNG),
      (fillCells cfg cells g rng).isOk = true := by
  intro cells
  induction cells with
  | nil => intro g rng; rfl
  | cons rc rest ih =>
    intro g rng
    simp only [fillCells]
    split
    · exact ih g rng
    · have hfill := getFillerSymbol_isOk cfg hs rng
      cases hg : PatternResolver.getFillerSymbol cfg rng with
      | error e => rw [hg] at hfill; exact Bool.noConfusion hfill
      | ok v =>
        obtain ⟨sid, rng2⟩ := v
        simp only [hg]
        exact ih _ rng2

theorem lossPaylineFill_isOk (lowMid : List Symbol) (hlm : lowMid ≠ []) :
    ∀ (cells : List (Nat × Nat)) (i : Nat) (g : PartialGrid),
      (lossPaylineFill lowMid cells i g).isOk = true := by
  intro cells
  induction cells with
  | nil => intro i g; rfl
  | cons rc rest ih =>
    intro i g
    simp only [lossPaylineFill]
    split
    · exact ih (i + 1) g
    · have hlen : 0 < lowMid.length := List.length_pos.mpr hlm
      have hlt : i % lowMid.length < lowMid.length := Nat.mod_lt _ hlen
      cases hget : lowMid.get? (i % lowMid.length) with
      | none =>
        rw [List.get?_eq_none] at hget
        omega
      | some sym =>
        simp only [hget]
        exact ih (i + 1) _

theorem lossAllPaylines_isOk (lowMid : List Symbol) (hlm : lowMid ≠ []) :
    ∀ (pls : List Payline) (g : PartialGrid),
      (lossAllPaylines lowMid pls g).isOk = true := by
  intro pls
  induction pls with
  | nil => intro g; rfl
  | cons pl rest ih =>
    intro g
    simp only [lossAllPaylines]
    have h1 := lossPaylineFill_isOk lowMid hlm pl 0 g
    cases hg : lossPaylineFill lowMid pl 0 g with
    | error e => rw [hg] at h1; exact Bool.noConfusion h1
    | ok g2 => simp only [hg]; exact ih g2

theorem filter_ne_nil_base {p : Symbol → Bool} {l : List Symbol}
    (h : l.filter p ≠ []) : l ≠ [] := by
  intro hnil
  rw [hnil] at h
  exact h rfl

theorem generateLossGrid_isOk (cfg : ResolverConfig)
    (hlm : cfg.symbols.filter (fun s => s.type == "LOW" || s.type == "MID") ≠ [])
    (rng : RNG) : (PatternResolver.generateLossGrid cfg rng).isOk = true := by
  have hs : cfg.symbols ≠ [] := filter_ne_nil_base hlm
  unfold PatternResolver.generateLossGrid
  have h1 := lossAllPaylines_isOk _ hlm cfg.gameRule.paylines
    (emptyPartialGrid cfg.gameRule.rows cfg.gameRule.cols)
  cases hg : lossAllPaylines (cfg.symbols.filter (fun s => s.type == "LOW" || s.type == "MID"))
      cfg.gameRule.paylines (emptyPartialGrid cfg.gameRule.rows cfg.gameRule.cols) with
  | error e => rw [hg] at h1; exact Bool.noConfusion h1
  | ok g1 =>
    simp only [hg]
    have h2 := fillCells_isOk cfg hs (cellList cfg.gameRule.rows cfg.gameRule.cols) g1 rng
    cases hf : fillCells cfg (cellList cfg.gameRule.rows cfg.gameRule.cols) g1 rng with
    | error e => rw [hf] at h2; exact Bool.noConfusion h2
    | ok v =>
      obtain ⟨g2, rng2⟩ := v
      simp only [hf]
      rfl

theorem lossAttemptLoop_isOk (cfg : ResolverConfig)
    (hlm : cfg.symbols.filter (fun s => s.type == "LOW" || s.type == "MID") ≠ []) :
    ∀ (fuel : Nat) (rng : RNG), (lossAttemptLoop cfg fuel rng).isOk = true := by
  intro fuel
  induction fuel with
  | zero =>
    intro rng
    simp only [lossAttemptLoop]
    have h1 := generateLossGrid_isOk cfg hlm rng
    cases hg : PatternResolver.generateLossGrid cfg rng with
    | error e => rw [hg] at h1; exact Bool.noConfusion h1
    | ok v =>
      obtain ⟨g, rng2⟩ := v
      simp only [hg]
      rfl
  | succ n ih =>
    intro rng
    simp only [lossAttemptLoop]
    have h1 := generateLossGrid_isOk cfg hlm rng
    cases hg : PatternResolver.generateLossGrid cfg rng with
    | error e => rw [hg] at h1; exact Bool.noConfusion h1
    | ok v =>
      obtain ⟨g, rng2⟩ := v
      simp only [hg]
      split
      · rfl
      · exact ih rng2

theorem refillNonAnchors_isOk (cfg : ResolverConfig) (hs : cfg.symbols ≠ [])
    (anchors : List Anchor) :
    ∀ (cells : List (Nat × Nat)) (g : Grid) (rng : RNG),
      (refillNonAnchors cfg anchors cells g rng).isOk = true := by
  intro cells
  induction cells with
  | nil => intro g rng; rfl
  | cons rc rest ih =>
    intro g rng
    simp only [refillNonAnchors]
    split
    · exact ih g rng
    · have hfill := getFillerSymbol_isOk cfg hs rng
      cases hg : PatternResolver.getFillerSymbol cfg rng with
      | error e => rw [hg] at hfill; exact Bool.noConfusion hfill
      | ok v =>
        obtain ⟨sid, rng2⟩ := v
        simp only [hg]
        exact ih _ rng2

theorem anchorsRetryLoop_isOk (cfg : ResolverConfig) (hs : cfg.symbols ≠ [])
    (anchors : List Anchor) (ewl : Option Nat) :
    ∀ (fuel : Nat) (g : Grid) (rng : RNG),
      (anchorsRetryLoop cfg anchors ewl fuel g rng).isOk = true := by
  intro fuel
  induction fuel with
  | zero => intro g rng; rfl
  | succ n ih =>
    intro g rng
    simp only [anchorsRetryLoop]
    have h1 := refillNonAnchors_isOk cfg hs anchors
      (cellList cfg.gameRule.rows cfg.gameRule.cols) g rng
    cases hr : refillNonAnchors cfg anchors (cellList cfg.gameRule.rows cfg.gameRule.cols)
        g rng with
    | error e => rw [hr] at h1; exact Bool.noConfusion h1
    | ok v =>
      obtain ⟨g2, rng2⟩ := v
      simp only [hr]
      split
      · rfl
      · exact ih g2 rng2

/-- Claim C7 (amended): the two resolver paths that the spec's
"forced-break fallback, never an error" description fits are total — the
LOSS/FEATURE path (which alone force-breaks via `_fixCollisions`) and the
generated-anchors path (which returns its last candidate without force-
breaking) never raise once a LOW/MID symbol exists.  The unamended claim is
false for the legacy WIN path, which errors out on validation exhaustion
(see the counterexample). -/
theorem resolver_fallback_paths_no_error_amended (cfg : ResolverConfig)
    (rngA rngB : RNG) (gi : GeneratedInfo)
    (hlm : cfg.symbols.filter (fun s => s.type == "LOW" || s.type == "MID") ≠ []) :
    (PatternResolver.resolveLoss cfg rngA).isOk = true ∧
    (PatternResolver.resolveFromAnchors cfg gi rngB).isOk = true := by
  have hs : cfg.symbols ≠ [] := filter_ne_nil_base hlm
  constructor
  · exact lossAttemptLoop_isOk cfg hlm 10 rngA
  · simp only [PatternResolver.resolveFromAnchors]
    have h1 := fillCells_isOk cfg hs (cellList cfg.gameRule.rows cfg.gameRule.cols)
      (placeAnchors (emptyPartialGrid cfg.gameRule.rows cfg.gameRule.cols) gi.anchors) rngB
    cases hf : fillCells cfg (cellList cfg.gameRule.rows cfg.gameRule.cols)
        (placeAnchors (emptyPartialGrid cfg.gameRule.rows cfg.gameRule.cols) gi.anchors)
        rngB with
    | error e => rw [hf] at h1; exact Bool.noConfusion h1
    | ok v =>
      obtain ⟨pg, rng2⟩ := v
      simp only [hf]
      generalize (if gi.winConditionType == "LINE" then gi.generatedWinLine else none) = ewl
      split
      · rfl
      · have h2 := anchorsRetryLoop_isOk cfg hs gi.anchors ewl 10 (pgridToGrid pg) rng2
        cases hl : anchorsRetryLoop cfg gi.anchors ewl 10 (pgridToGrid pg) rng2 with
        | error e => rw [hl] at h2; exact Bool.noConfusion h2
        | ok v2 =>
          obtain ⟨g2, rng3⟩ := v2
          simp only [hl]
          rfl

/-- Witness for C7 (amended): the single-LOW-symbol configuration satisfies
the hypothesis, and both fallback paths return a grid. -/
theorem resolver_fallback_paths_no_error_witness :
    (PatternResolver.resolveLoss cfgC1 (RNG.ofNat 42)).isOk = true ∧
    (PatternResolver.resolveFromAnchors cfgC1 giC7w (RNG.ofNat 7)).isOk = true :=
  resolver_fallback_paths_no_error_amended cfgC1 (RNG.ofNat 42) (RNG.ofNat 7) giC7w
    (by decide)

/-- Counterexample to C7 as stated: on the legacy-pattern WIN path with a
single symbol and two paylines over the same cells, every candidate grid
fails validation, the retry recursion never terminates normally, and
`resolve` surfaces an error (the JS call stack overflows) instead of
force-breaking — the claim says `resolve` never raises on any path. -/
theorem resolver_legacy_win_error_counterexample :
    PatternResolver.resolve cfgC7 none outC7 none (RNG.ofNat 42) none 3 =
      .error "RangeError: maximum call stack size exceeded" ∧
    outC7.type = "WIN" ∧ outC7.hasLegacyPattern = true := by
  refine ⟨by decide, rfl, rfl⟩

/-! ## Lemmas: visual finalization and the exhaustion fallback (claims C4 and C9) -/

theorem finalizeTelemetry_grid (t : Telemetry) (g : Grid) :
    (finalizeTelemetry t g).grid = g := rfl

theorem finalizeTelemetry_reasons (t : Telemetry) (g : Grid) :
    (finalizeTelemetry t g).telemetry.visualAttemptReasons = t.visualAttemptReasons := by
  simp only [finalizeTelemetry]
  split
  · rfl
  · split <;> rfl

theorem telemetryInvariant_finalize (t : Telemetry) (g : Grid) :
    telemetryInvariant (finalizeTelemetry t g).telemetry := by
  by_cases ha : t.visualAppliedType = "NONE"
  · by_cases hr : t.visualRequestedType = "NONE"
    · simp [finalizeTelemetry, telemetryInvariant, clearedField, ha, hr]
    · by_cases he : t.visualRequestedType = ""
      · simp [finalizeTelemetry, telemetryInvariant, clearedField, ha, hr, he]
      · simp [finalizeTelemetry, telemetryInvariant, clearedField, ha, hr, he]
  · simp [finalizeTelemetry, telemetryInvariant, clearedField, ha]

theorem validateNoAccidentalWin_reason_ne (gameRule : GameRule) (grid : Grid)
    (ewl : Option Nat) (r : String)
    (h : (validateNoAccidentalWin gameRule grid ewl).reason = some r) :
    r ≠ "MAX_RETRIES" := by
  unfold validateNoAccidentalWin at h
  split at h
  · next i hi =>
    have h2 : some ("ACCIDENTAL_WIN_PAYLINE_" ++ toString i) = some r := h
    injection h2 with h3
    intro hc
    rw [hc] at h3
    have hlen := congrArg String.length h3
    rw [String.length_append] at hlen
    have h23 : ("ACCIDENTAL_WIN_PAYLINE_" : String).length = 23 := rfl
    have h11 : ("MAX_RETRIES" : String).length = 11 := rfl
    omega
  · exact Option.noConfusion h

theorem validateSafety_reason_ne (gameRule : GameRule) (grid : Grid) (outcome : Outcome)
    (wl : Option Nat) (r : String)
    (h : (validateSafety gameRule grid outcome wl).reason = some r) :
    r ≠ "MAX_RETRIES" := by
  simp only [validateSafety] at h
  split at h
  · split at h
    · have h2 : some "ANTI_EXTEND_VIOLATION" = some r := h
      injection h2 with h3
      subst h3
      decide
    · exact validateNoAccidentalWin_reason_ne _ _ _ _ h
  · exact validateNoAccidentalWin_reason_ne _ _ _ _ h
theorem phase3Loop_ok_invariant (vcfg : VisualConfig) (symbols : List Symbol)
    (gameRule : GameRule) (outcome : Outcome) (ewl : Option Nat)
    (pcs : List (Nat × Nat)) (baseGrid : Grid) (fuel : Nat) :
    ∀ (attempt : Nat) (g : Grid) (rng : RNG) (tel : Telemetry) (lr ld : Option String)
      (res : VCResult) (rng2 : RNG),
      phase3Loop vcfg symbols gameRule outcome ewl pcs baseGrid fuel attempt g rng tel lr ld
        = .ok (res, rng2) →
      telemetryInvariant res.telemetry := by
  induction fuel with
  | zero =>
    intro attempt g rng tel lr ld res rng2 h
    simp only [phase3Loop] at h
    cases h
    exact telemetryInvariant_finalize _ _
  | succ fuel ih =>
    intro attempt g rng tel lr ld res rng2 h
    simp only [phase3Loop] at h
    split at h
    · split at h
      · exact Except.noConfusion h
      · exact ih _ _ _ _ _ _ _ _ h
    · split at h
      · cases h
        exact telemetryInvariant_finalize _ _
      · split at h
        · exact Except.noConfusion h
        · exact ih _ _ _ _ _ _ _ _ h

theorem phase3Loop_maxRetries_grid (vcfg : VisualConfig) (symbols : List Symbol)
    (gameRule : GameRule) (outcome : Outcome) (ewl : Option Nat)
    (pcs : List (Nat × Nat)) (baseGrid : Grid) (fuel : Nat) :
    ∀ (attempt : Nat) (g : Grid) (rng : RNG) (tel : Telemetry) (lr ld : Option String)
      (res : VCResult) (rng2 : RNG),
      phase3Loop vcfg symbols gameRule outcome ewl pcs baseGrid fuel attempt g rng tel lr ld
        = .ok (res, rng2) →
      "MAX_RETRIES" ∉ tel.visualAttemptReasons →
      "MAX_RETRIES" ∈ res.telemetry.visualAttemptReasons →
      res.grid = baseGrid := by
  induction fuel with
  | zero =>
    intro attempt g rng tel lr ld res rng2 h _ _
    simp only [phase3Loop] at h
    cases h
    exact finalizeTelemetry_grid _ _
  | succ fuel ih =>
    intro attempt g rng tel lr ld res rng2 h htel hres
    simp only [phase3Loop] at h
    split at h
    · split at h
      · exact Except.noConfusion h
      · refine ih _ _ _ _ _ _ _ _ h ?_ hres
        intro hmem
        simp only [List.mem_append, List.mem_singleton] at hmem
        rcases hmem with hmem | hmem
        · exact htel hmem
        · exact absurd hmem (by decide)
    · split at h
      · exfalso
        cases h
        rw [finalizeTelemetry_reasons] at hres
        simp only [List.mem_append, List.mem_singleton] at hres
        rcases hres with hres | hres
        · exact htel hres
        · exact absurd hres (by decide)
      · split at h
        · exact Except.noConfusion h
        · refine ih _ _ _ _ _ _ _ _ h ?_ hres
          intro hmem
          simp only [List.mem_append] at hmem
          rcases hmem with hmem | hmem
          · exact htel hmem
          · rcases hr : (validateSafety gameRule g outcome ewl).reason with _ | r
            · rw [hr] at hmem
              simp at hmem
            · rw [hr] at hmem
              simp only [List.mem_singleton] at hmem
              exact validateSafety_reason_ne gameRule g outcome ewl r hr hmem.symm
theorem applyTease_reasons (symbols : List Symbol) (gameRule : GameRule) (grid : Grid)
    (outcome : Outcome) (winLine : Option Nat) (rng : RNG) (tel : Telemetry)
    (pcs : List (Nat × Nat)) :
    (applyTease symbols gameRule grid outcome winLine rng tel pcs).2.1.visualAttemptReasons
      = tel.visualAttemptReasons := by
  simp only [applyTease]
  repeat' split
  all_goals rfl

theorem applyNearMissLinePay_reasons (vcfg : VisualConfig) (symbols : List Symbol)
    (gameRule : GameRule) (grid : Grid) (rng : RNG) (tel : Telemetry) :
    (applyNearMissLinePay vcfg symbols gameRule grid rng tel).2.1.visualAttemptReasons
      = tel.visualAttemptReasons := by
  simp only [applyNearMissLinePay]
  repeat' split
  all_goals rfl

theorem phase1Apply_reasons (vcfg : VisualConfig) (symbols : List Symbol)
    (gameRule : GameRule) (grid : Grid) (outcome : Outcome) (wlEvents : Option Nat)
    (pcs : List (Nat × Nat)) (tc : TeaseCheck) (tel1 : Telemetry) (rng1 : RNG)
    (vs1 : Option VisualState) (sc : VisualContext) :
    (phase1Apply vcfg symbols gameRule grid outcome wlEvents pcs tc tel1 rng1 vs1
      sc).2.1.visualAttemptReasons = tel1.visualAttemptReasons := by
  simp only [phase1Apply]
  split
  · exact applyTease_reasons symbols gameRule grid outcome wlEvents rng1
      { tel1 with visualRequestedType := "TEASE" } pcs
  · split
    · exact applyNearMissLinePay_reasons vcfg symbols gameRule grid rng1
        { tel1 with visualRequestedType := "NEAR_MISS" }
    · rfl
theorem applyConstraintsCore_ok_invariant (vcfg : VisualConfig) (symbols : List Symbol)
    (gameRule : GameRule) (grid : Grid) (outcome : Outcome) (winEvents : List WinEvent)
    (safeContext : VisualContext) (legacyWinLine : Option Nat) (vstate : Option VisualState)
    (res : VCResult) (vs2 : Option VisualState)
    (h : applyConstraintsCore vcfg symbols gameRule grid outcome winEvents safeContext
      legacyWinLine vstate = .ok (res, vs2)) :
    telemetryInvariant res.telemetry := by
  simp only [applyConstraintsCore] at h
  split at h
  · exact Except.noConfusion h
  · split at h
    · exact Except.noConfusion h
    · next res2 rng2 heq =>
      cases h
      exact phase3Loop_ok_invariant _ _ _ _ _ _ _ _ _ _ _ _ _ _ _ _ heq

theorem applyConstraintsCore_maxRetries_grid (vcfg : VisualConfig) (symbols : List Symbol)
    (gameRule : GameRule) (grid : Grid) (outcome : Outcome) (winEvents : List WinEvent)
    (safeContext : VisualContext) (legacyWinLine : Option Nat) (vstate : Option VisualState)
    (res : VCResult) (vs2 : Option VisualState)
    (h : applyConstraintsCore vcfg symbols gameRule grid outcome winEvents safeContext
      legacyWinLine vstate = .ok (res, vs2))
    (hm : "MAX_RETRIES" ∈ res.telemetry.visualAttemptReasons) :
    res.grid = grid := by
  simp only [applyConstraintsCore] at h
  split at h
  · exact Except.noConfusion h
  · split at h
    · exact Except.noConfusion h
    · next res2 rng2 heq =>
      cases h
      refine phase3Loop_maxRetries_grid _ _ _ _ _ _ _ _ _ _ _ _ _ _ _ _ heq ?_ hm
      rw [phase1Apply_reasons]
      simp

/-- **Claim C9** (confirmed): every telemetry record returned by
`applyConstraints` satisfies the invariant of `_finalizeTelemetry`: the
`visualApplied` flag equals `visualAppliedType != 'NONE'`, and the
guard-failure fields (`visualGuardFailReason`, `visualGuardFailDetail`) are
cleared both when an augmentation was applied and when none was ever
requested. -/
theorem telemetry_finalization_invariant (vcfg : VisualConfig) (symbols : List Symbol)
    (gameRule : GameRule) (grid : Grid) (outcome : Outcome) (winEvents : List WinEvent)
    (context : Option VisualContext) (legacyWinLine : Option Nat) (vstate : Option VisualState)
    (res : VCResult) (vs2 : Option VisualState)
    (h : VisualConstraintEngine.applyConstraints vcfg symbols gameRule grid outcome winEvents
      context legacyWinLine vstate = .ok (res, vs2)) :
    telemetryInvariant res.telemetry := by
  simp only [VisualConstraintEngine.applyConstraints] at h
  split at h
  · cases h
    exact ⟨rfl, fun _ => ⟨Or.inl rfl, Or.inl rfl⟩⟩
  · split at h
    · cases h
      exact ⟨rfl, fun _ => ⟨Or.inl rfl, Or.inl rfl⟩⟩
    · exact applyConstraintsCore_ok_invariant _ _ _ _ _ _ _ _ _ _ _ h

/-- Claim C9 witness: the concrete exhausted run `applyC4` returns with a
telemetry record satisfying the invariant. -/
theorem telemetry_finalization_invariant_witness :
    applyC4 = .ok (vcResC4, vsC4) ∧ telemetryInvariant vcResC4.telemetry :=
  ⟨by decide,
   telemetry_finalization_invariant {} symsC4 grC4 gridC4 outC4 [] (some ctxC4) none
     (some {}) vcResC4 vsC4 (by decide)⟩

/-- **Claim C4** (confirmed): whenever `applyConstraints` exhausts its bounded
retry budget without any candidate passing the forbidden-symbol scan and the
accidental-win safety scan — the exhaustion being recorded by the
`MAX_RETRIES` entry that only the exhaustion branch of the retry loop ever
appends to `visualAttemptReasons` — the grid it returns is cell-for-cell the
input (pre-augmentation) grid. -/
theorem applyConstraints_exhaustion_returns_input (vcfg : VisualConfig)
    (symbols : List Symbol) (gameRule : GameRule) (grid : Grid) (outcome : Outcome)
    (winEvents : List WinEvent) (context : Option VisualContext)
    (legacyWinLine : Option Nat) (vstate : Option VisualState)
    (res : VCResult) (vs2 : Option VisualState)
    (h : VisualConstraintEngine.applyConstraints vcfg symbols gameRule grid outcome winEvents
      context legacyWinLine vstate = .ok (res, vs2))
    (hm : "MAX_RETRIES" ∈ res.telemetry.visualAttemptReasons) :
    res.grid = grid := by
  simp only [VisualConstraintEngine.applyConstraints] at h
  split at h
  · cases h
    rfl
  · split at h
    · cases h
      rfl
    · exact applyConstraintsCore_maxRetries_grid _ _ _ _ _ _ _ _ _ _ _ h hm

/-- Claim C4 witness: the single-LOW-symbol LOSS run `applyC4` exhausts all
10 retries (every redistribution yields the all-`L1` grid, an accidental
win), records `MAX_RETRIES`, and returns the pre-augmentation grid. -/
theorem applyConstraints_exhaustion_returns_input_witness :
    "MAX_RETRIES" ∈ vcResC4.telemetry.visualAttemptReasons ∧ vcResC4.grid = gridC4 :=
  ⟨by decide,
   applyConstraints_exhaustion_returns_input {} symsC4 grC4 gridC4 outC4 [] (some ctxC4)
     none (some {}) vcResC4 vsC4 (by decide) (by decide)⟩
/-! ## Lemmas: the evaluator's event discipline (claim C3) -/

theorem lineInBounds_cons (grid : Grid) (row col : Nat) (rest : Payline) :
    lineInBounds grid ((row, col) :: rest) =
      (decide (row < grid.length ∧ col < (grid.getD row []).length) &&
        lineInBounds grid rest) := by
  simp [lineInBounds]

theorem readLine_fst (grid : Grid) :
    ∀ pl : Payline, (readLine grid pl).1 =
      if lineInBounds grid pl then
        some (pl.map (fun rc => (gridGet grid rc.1 rc.2, rc)))
      else none := by
  intro pl
  induction pl with
  | nil => simp [readLine, lineInBounds]
  | cons rc rest ih =>
    obtain ⟨row, col⟩ := rc
    simp only [readLine, lineInBounds_cons]
    by_cases hb : row < grid.length ∧ col < (grid.getD row []).length
    · rw [if_pos hb]
      rw [decide_eq_true hb, Bool.true_and]
      cases h : readLine grid rest with
      | mk o g2 =>
        rw [h] at ih
        cases o with
        | some tl =>
          by_cases hr : lineInBounds grid rest = true
          · rw [if_pos hr] at ih
            rw [if_pos hr]
            have htl : tl = rest.map (fun rc => (gridGet grid rc.1 rc.2, rc)) :=
              Option.some.inj ih
            rw [List.map_cons, ← htl]
          · rw [if_neg hr] at ih
            exact Option.noConfusion ih
        | none =>
          by_cases hr : lineInBounds grid rest = true
          · rw [if_pos hr] at ih
            exact Option.noConfusion ih
          · rw [if_neg hr] at ih
            rw [if_neg hr]
    · rw [if_neg hb]
      rw [decide_eq_false hb, Bool.false_and]
      simp

theorem takeWhile_fst_length (rest : Payline) (grid : Grid) (s0 : String) :
    ((rest.map (fun rc => (gridGet grid rc.1 rc.2, rc))).takeWhile
        (fun x => x.1 == s0)).length =
      ((rest.map (fun rc => gridGet grid rc.1 rc.2)).takeWhile
        (fun t => t == s0)).length := by
  rw [List.takeWhile_map, List.takeWhile_map]
  rw [List.length_map, List.length_map]
  rfl

theorem evalLinePay_isSome (cfg : EvalConfig) (grid : Grid) (pl : Payline) (idx : Nat) :
    (evalLinePay cfg grid pl idx).1.isSome = lineQualifies cfg grid pl := by
  cases pl with
  | nil => simp [evalLinePay, lineQualifies]
  | cons rc rest =>
    obtain ⟨row, col⟩ := rc
    have h2 := readLine_snd grid ((row, col) :: rest)
    have h1 := readLine_fst grid ((row, col) :: rest)
    by_cases hin : lineInBounds grid ((row, col) :: rest) = true
    · rw [if_pos hin] at h1
      have hpair : readLine grid ((row, col) :: rest)
          = (some (((row, col) :: rest).map (fun rc => (gridGet grid rc.1 rc.2, rc))), grid) :=
        Prod.ext h1 h2
      simp only [evalLinePay, hpair, List.map_cons, lineQualifies, lineSymbols,
        startsWithRun3, hin, List.isEmpty_cons, Bool.not_false, Bool.true_and,
        Bool.and_true]
      have hlen := takeWhile_fst_length rest grid (gridGet grid row col)
      by_cases hrun : 2 ≤ ((rest.map (fun rc => gridGet grid rc.1 rc.2)).takeWhile
          (fun t => t == gridGet grid row col)).length
      · have hc : ¬(1 + ((rest.map (fun rc => (gridGet grid rc.1 rc.2, rc))).takeWhile
            (fun x => x.1 == gridGet grid row col)).length < 3) := by omega
        rw [if_neg hc]
        cases hfind : symbolMapFind cfg.symbols (gridGet grid row col) with
        | none => simp [hfind, hrun]
        | some s => simp [hfind, hrun]
      · have hc : 1 + ((rest.map (fun rc => (gridGet grid rc.1 rc.2, rc))).takeWhile
            (fun x => x.1 == gridGet grid row col)).length < 3 := by omega
        rw [if_pos hc]
        simp [hrun]
    · have hinf : lineInBounds grid ((row, col) :: rest) = false := by
        simpa using hin
      rw [if_neg hin] at h1
      have hpair : readLine grid ((row, col) :: rest) = (none, grid) := Prod.ext h1 h2
      simp [evalLinePay, hpair, lineQualifies, hinf]

theorem evalLinePay_event (cfg : EvalConfig) (grid : Grid) (pl : Payline) (idx : Nat)
    (e : WinEvent) (h : (evalLinePay cfg grid pl idx).1 = some e) :
    e.ruleType = "LINE" ∧ e.paylineIndex = some idx := by
  simp only [evalLinePay] at h
  split at h
  · exact Option.noConfusion h
  · split at h
    · exact Option.noConfusion h
    · exact Option.noConfusion h
    · split at h
      · exact Option.noConfusion h
      · split at h
        · exact Option.noConfusion h
        · have h2 := Option.some.inj h
          rw [← h2]
          exact ⟨rfl, rfl⟩

theorem lineQualifies_nil_grid (cfg : EvalConfig) (pl : Payline) :
    lineQualifies cfg [] pl = false := by
  cases pl with
  | nil => rfl
  | cons rc rest => simp [lineQualifies, lineInBounds]

theorem firstQualIdx_nil_grid (cfg : EvalConfig) (pls : List Payline) :
    firstQualIdx cfg [] pls = none := by
  induction pls with
  | nil => rfl
  | cons pl rest ih => simp [firstQualIdx, lineQualifies_nil_grid, ih]
theorem evalFirstLine_none_of_none (cfg : EvalConfig) (grid : Grid) :
    ∀ (pls : List Payline) (idx : Nat),
      firstQualIdx cfg grid pls = none →
      (evalFirstLine cfg grid idx pls).1 = none := by
  intro pls
  induction pls with
  | nil => intro idx _; rfl
  | cons pl rest ih =>
    intro idx h
    simp only [firstQualIdx] at h
    by_cases hq : lineQualifies cfg grid pl = true
    · rw [if_pos hq] at h
      exact Option.noConfusion h
    · rw [if_neg hq] at h
      have hrest : firstQualIdx cfg grid rest = none := by
        cases hr : firstQualIdx cfg grid rest with
        | none => rfl
        | some j => rw [hr] at h; exact Option.noConfusion h
      have hqf : lineQualifies cfg grid pl = false := by simpa using hq
      have hki : (evalLinePay cfg grid pl idx).1.isSome = false := by
        rw [evalLinePay_isSome]; exact hqf
      have hsnd := evalLinePay_snd cfg grid pl idx
      cases hlp : evalLinePay cfg grid pl idx with
      | mk o g2 =>
        rw [hlp] at hki hsnd
        cases o with
        | some e => simp at hki
        | none =>
          have hg : g2 = grid := hsnd
          simp only [evalFirstLine, hlp]
          rw [hg]
          exact ih (idx + 1) hrest

theorem evalFirstLine_of_firstQualIdx (cfg : EvalConfig) (grid : Grid) :
    ∀ (pls : List Payline) (idx j : Nat),
      firstQualIdx cfg grid pls = some j →
      ∃ e, (evalFirstLine cfg grid idx pls).1 = some e ∧
        e.ruleType = "LINE" ∧ e.paylineIndex = some (idx + j) := by
  intro pls
  induction pls with
  | nil => intro idx j h; exact Option.noConfusion h
  | cons pl rest ih =>
    intro idx j h
    simp only [firstQualIdx] at h
    by_cases hq : lineQualifies cfg grid pl = true
    · rw [if_pos hq] at h
      have hj := Option.some.inj h
      subst hj
      have hki : (evalLinePay cfg grid pl idx).1.isSome = true := by
        rw [evalLinePay_isSome]; exact hq
      cases hlp : evalLinePay cfg grid pl idx with
      | mk o g2 =>
        rw [hlp] at hki
        cases o with
        | none => simp at hki
        | some e =>
          have hev := evalLinePay_event cfg grid pl idx e (by rw [hlp])
          refine ⟨e, ?_, hev.1, ?_⟩
          · simp [evalFirstLine, hlp]
          · rw [hev.2]
            norm_num
    · rw [if_neg hq] at h
      cases hr : firstQualIdx cfg grid rest with
      | none => rw [hr] at h; exact Option.noConfusion h
      | some j2 =>
        rw [hr] at h
        simp at h
        subst h
        have hqf : lineQualifies cfg grid pl = false := by simpa using hq
        have hki : (evalLinePay cfg grid pl idx).1.isSome = false := by
          rw [evalLinePay_isSome]; exact hqf
        have hsnd := evalLinePay_snd cfg grid pl idx
        cases hlp : evalLinePay cfg grid pl idx with
        | mk o g2 =>
          rw [hlp] at hki hsnd
          cases o with
          | some e => simp at hki
          | none =>
            have hg : g2 = grid := hsnd
            obtain ⟨e, he1, he2, he3⟩ := ih (idx + 1) j2 hr
            refine ⟨e, ?_, he2, ?_⟩
            · simp only [evalFirstLine, hlp]
              rw [hg]
              exact he1
            · rw [he3]
              congr 1
              omega

theorem evalAnyPositionPay_shape (cfg : EvalConfig) (grid : Grid) :
    (evalAnyPositionPay cfg grid).1 = [] ∨
    ∃ aps, cfg.symbols.find? (fun s => s.type == "ANY_POSITION") = some aps ∧
      3 ≤ (collectPositions grid aps.id).length ∧
      (evalAnyPositionPay cfg grid).1 =
        [{ eventId := "ANY_POS_" ++ aps.id ++ "_" ++
             toString (collectPositions grid aps.id).length,
           ruleType := "ANY_POSITION", winAmount := 0, paidSymbolId := aps.id,
           displaySymbolId := aps.id, positions := collectPositions grid aps.id,
           matchCount := (collectPositions grid aps.id).length }] := by
  cases hf : cfg.symbols.find? (fun s => s.type == "ANY_POSITION") with
  | none =>
    left
    simp [evalAnyPositionPay, hf]
  | some aps =>
    by_cases hn : 3 ≤ (collectPositions grid aps.id).length
    · right
      exact ⟨aps, rfl, hn, by simp [evalAnyPositionPay, hf, hn]⟩
    · left
      simp [evalAnyPositionPay, hf, hn]
/-- **Claim C3** (corrected): `evaluate` returns at most one event, LINE and
ANY_POSITION events never co-occur, and the LINE event (when some payline
*qualifies*) is for the first qualifying payline; the amendment is the
notion of qualifying: the payline must be nonempty, in bounds, start with a
run of ≥ 3 identical symbols **and that symbol must be in the catalog** —
`_evaluateLinePay` returns null on a `symbolMap` miss, so a run of an
uncatalogued symbol does not trigger a LINE event (see the counterexample).
An ANY_POSITION event is returned only when no payline qualifies and the
designated symbol occurs at least 3 times, listing every occurrence. -/
theorem evaluate_single_event_first_line_amended (cfg : EvalConfig) (grid : Grid) :
    (PayRuleEvaluator.evaluate cfg grid).1.length ≤ 1 ∧
    (∀ j, firstQualIdx cfg grid cfg.gameRule.paylines = some j →
      ∃ e, (PayRuleEvaluator.evaluate cfg grid).1 = [e] ∧
        e.ruleType = "LINE" ∧ e.paylineIndex = some j) ∧
    (∀ e, e ∈ (PayRuleEvaluator.evaluate cfg grid).1 → e.ruleType = "ANY_POSITION" →
      firstQualIdx cfg grid cfg.gameRule.paylines = none ∧
      ∃ aps, cfg.symbols.find? (fun s => s.type == "ANY_POSITION") = some aps ∧
        e.paidSymbolId = aps.id ∧ e.positions = collectPositions grid aps.id ∧
        3 ≤ e.positions.length) ∧
    (∀ e1 ∈ (PayRuleEvaluator.evaluate cfg grid).1,
     ∀ e2 ∈ (PayRuleEvaluator.evaluate cfg grid).1,
      ¬(e1.ruleType = "LINE" ∧ e2.ruleType = "ANY_POSITION")) := by
  by_cases hg : grid = []
  · subst hg
    refine ⟨by simp [PayRuleEvaluator.evaluate], ?_, ?_, ?_⟩
    · intro j hj
      rw [firstQualIdx_nil_grid] at hj
      exact Option.noConfusion hj
    · intro e he
      simp [PayRuleEvaluator.evaluate] at he
    · intro e1 he1
      simp [PayRuleEvaluator.evaluate] at he1
  · have hgf : grid.isEmpty = false := by
      cases grid
      · exact absurd rfl hg
      · rfl
    cases hq : firstQualIdx cfg grid cfg.gameRule.paylines with
    | some j0 =>
      obtain ⟨e0, he0, hrt0, hpi0⟩ :=
        evalFirstLine_of_firstQualIdx cfg grid cfg.gameRule.paylines 0 j0 hq
      have hpi0q : e0.paylineIndex = some j0 := by rw [hpi0]; norm_num
      cases hfl : evalFirstLine cfg grid 0 cfg.gameRule.paylines with
      | mk o g2 =>
        rw [hfl] at he0
        have ho : o = some e0 := he0
        subst ho
        have hres : (PayRuleEvaluator.evaluate cfg grid).1 = [e0] := by
          simp [PayRuleEvaluator.evaluate, hgf, hfl]
        refine ⟨by rw [hres]; simp, ?_, ?_, ?_⟩
        · intro j hj
          have hjj := Option.some.inj hj
          subst hjj
          exact ⟨e0, hres, hrt0, hpi0q⟩
        · intro e he hrt
          rw [hres] at he
          simp at he
          subst he
          exact absurd (hrt0.symm.trans hrt) (by decide)
        · intro e1 he1 e2 he2 hcon
          rw [hres] at he2
          simp at he2
          subst he2
          exact absurd (hrt0.symm.trans hcon.2) (by decide)
    | none =>
      have hfl1 : (evalFirstLine cfg grid 0 cfg.gameRule.paylines).1 = none :=
        evalFirstLine_none_of_none cfg grid cfg.gameRule.paylines 0 hq
      have hsnd := evalFirstLine_snd cfg cfg.gameRule.paylines grid 0
      cases hfl : evalFirstLine cfg grid 0 cfg.gameRule.paylines with
      | mk o g2 =>
        rw [hfl] at hfl1 hsnd
        have ho : o = none := hfl1
        subst ho
        have hg2 : g2 = grid := hsnd
        subst hg2
        have hres : (PayRuleEvaluator.evaluate cfg g2).1 =
            (evalAnyPositionPay cfg g2).1.take 1 := by
          simp [PayRuleEvaluator.evaluate, hgf, hfl]
        rcases evalAnyPositionPay_shape cfg g2 with hsh | ⟨aps, hfind, hlen, hsh⟩
        · have hres2 : (PayRuleEvaluator.evaluate cfg g2).1 = [] := by
            rw [hres, hsh]
            rfl
          refine ⟨by rw [hres2]; simp, ?_, ?_, ?_⟩
          · intro j hj
            exact Option.noConfusion hj
          · intro e he
            rw [hres2] at he
            simp at he
          · intro e1 he1
            rw [hres2] at he1
            simp at he1
        · have hres2 : (PayRuleEvaluator.evaluate cfg g2).1 =
              [{ eventId := "ANY_POS_" ++ aps.id ++ "_" ++
                   toString (collectPositions g2 aps.id).length,
                 ruleType := "ANY_POSITION", winAmount := 0, paidSymbolId := aps.id,
                 displaySymbolId := aps.id, positions := collectPositions g2 aps.id,
                 matchCount := (collectPositions g2 aps.id).length }] := by
            rw [hres, hsh]
            rfl
          refine ⟨by rw [hres2]; simp, ?_, ?_, ?_⟩
          · intro j hj
            exact Option.noConfusion hj
          · intro e he hrt
            rw [hres2] at he
            simp at he
            subst he
            exact ⟨rfl, aps, hfind, rfl, rfl, hlen⟩
          · intro e1 he1 e2 he2 hcon
            rw [hres2] at he1
            simp at he1
            subst he1
            have hne : ("ANY_POSITION" : String) ≠ "LINE" := by decide
            exact absurd hcon.1 hne

/-- Claim C3 counterexample: payline 0 of `gridC3x` starts with a run of 3
identical in-bounds symbols (`X X X`), yet the evaluator returns **no**
event: `X` is not in the symbol catalog and `_evaluateLinePay` returns null
on a `symbolMap` miss, so the claim's unqualified "starts with a run of 3 or
more consecutive identical symbols" trigger is refuted. -/
theorem evaluate_uncatalogued_run_counterexample :
    startsWithRun3 (lineSymbols gridC3x (cfgC3.gameRule.paylines.getD 0 [])) = true ∧
    lineInBounds gridC3x (cfgC3.gameRule.paylines.getD 0 []) = true ∧
    (PayRuleEvaluator.evaluate cfgC3 gridC3x).1 = [] := by
  refine ⟨by decide, by decide, by decide⟩

/-- Claim C3 witness: on the catalogued win grid `gridC3w` payline 0
qualifies and the amended theorem yields the single LINE event for it. -/
theorem evaluate_single_event_first_line_witness :
    firstQualIdx cfgC3 gridC3w cfgC3.gameRule.paylines = some 0 ∧
    ∃ e, (PayRuleEvaluator.evaluate cfgC3 gridC3w).1 = [e] ∧
      e.ruleType = "LINE" ∧ e.paylineIndex = some 0 :=
  ⟨by decide,
   (evaluate_single_event_first_line_amended cfgC3 gridC3w).2.1 0 (by decide)⟩
end SlotSim
